import Mathlib

/-!
Verification of the three-phase UML diagram grading pipeline.

This file gives a shallow embedding, in Lean 4, of the core algorithms of the
grading system: diagram-type detection, the pattern-based diagram parsers, the
metrics engine (semantic matching, per-category and aggregated
precision/recall/F1/accuracy), the Phase-1 normalization validator, the Phase-3
score calculator, and the three-phase pipeline orchestration.  Python floats
are modelled by rationals, Python ints by integers, strings by lists of
characters (lower-casing and whitespace are modelled at ASCII granularity,
which covers every constant appearing in the sources), and code that can raise
returns an `Except` value.  The theorems at the end of the file settle the
stated properties of the system against these definitions.
-/

namespace AutoScoring

/-! ## Python string primitives -/

/-- Python `str.lower()` (ASCII model). -/
def pyLower (s : List Char) : List Char := s.map Char.toLower

/-- Python `str.strip()` default whitespace (ASCII model). -/
def pyStrip (s : List Char) : List Char :=
  ((s.dropWhile Char.isWhitespace).reverse.dropWhile Char.isWhitespace).reverse

/-- Python substring test `needle in haystack`. -/
def pyContains (haystack needle : List Char) : Bool :=
  decide (needle <:+: haystack)

/-- Python `str.startswith`. -/
def pyStartsWith (s p : List Char) : Bool := decide (p <+: s)

/-- Python `str.endswith`. -/
def pyEndsWith (s p : List Char) : Bool := decide (p <:+ s)

/-- Python `str.count(sub)`, fuel-based so that it evaluates by reduction:
number of non-overlapping occurrences, scanning left to right.  The fuel
(instantiated with the haystack length, which strictly dominates the
recursion) is consumed once per examined position. -/
def pyCountAux : ℕ → List Char → List Char → Nat
  | 0, _, _ => 0
  | _ + 1, _, [] => 0
  | _ + 1, [], _ => 0
  | fuel + 1, c :: rest, p :: ps =>
    if (p :: ps) <+: (c :: rest) then
      1 + pyCountAux fuel ((c :: rest).drop (p :: ps).length) (p :: ps)
    else
      pyCountAux fuel rest (p :: ps)

/-- Python `str.count(sub)` for a non-empty pattern. -/
def pyCount (s pat : List Char) : Nat := pyCountAux s.length s pat

/-- Python `str.split('\n')`. -/
def pySplitLines (s : List Char) : List (List Char) :=
  s.splitOn '\n'
  |>.map id

/-- Python `str.split()` with no argument: split on whitespace runs,
discarding empty pieces. -/
def pySplitWs (s : List Char) : List (List Char) :=
  (s.splitOnP Char.isWhitespace).filter (fun p => !p.isEmpty)

/-! ## Letter grades

Two independent implementations exist in the sources: the `ScoreCalculator`
walks an ordered threshold table, while `ThreePhasePipeline` uses an
`if`/`elif` chain.  Both are embedded here.
-/

/-- The ordered grade-threshold table of `ScoreCalculator.__init__`
(`self.grade_thresholds`, insertion order A, B, C, D, F). -/
def grade_thresholds : List (String × ℚ) :=
  [("A", 9), ("B", 8), ("C", 7), ("D", 6), ("F", 0)]

/-- Helper: the `for grade, threshold in ...: if score >= threshold: return`
loop of `ScoreCalculator._get_letter_grade`, with the trailing `return 'F'`. -/
def lookupGrade : List (String × ℚ) → ℚ → String
  | [], _ => "F"
  | (g, t) :: rest, s => if s ≥ t then g else lookupGrade rest s

/-- `ScoreCalculator._get_letter_grade` (threshold-table lookup). -/
def scoreCalcLetterGrade (score : ℚ) : String :=
  lookupGrade grade_thresholds score

/-- `ThreePhasePipeline._get_letter_grade` (`if`/`elif` chain). -/
def pipelineLetterGrade (score : ℚ) : String :=
  if score ≥ 9 then "A"
  else if score ≥ 8 then "B"
  else if score ≥ 7 then "C"
  else if score ≥ 6 then "D"
  else "F"

/-- Numeric rank of a letter grade, used to state monotonicity. -/
def gradeRank : String → ℕ
  | "A" => 4
  | "B" => 3
  | "C" => 2
  | "D" => 1
  | _ => 0

/-! ## Diagram types and type detection (`DiagramFactory`) -/

/-- The `DiagramType` enum. -/
inductive DiagramType where
  | USE_CASE
  | CLASS
  | SEQUENCE
deriving DecidableEq, Repr

/-- Sequence-diagram indicator keywords of
`DiagramFactory.detect_diagram_type_from_plantuml`. -/
def sequence_indicators : List String :=
  ["participant", "actor", "boundary", "control", "entity",
   "->", "->>", "<--", "activate", "deactivate"]

/-- Class-diagram indicator keywords. -/
def class_indicators : List String :=
  ["class", "interface", "abstract", "enum",
   "--|>", "*--", "o--", "+", "-", "#", "~"]

/-- Use-case-diagram indicator keywords. -/
def usecase_indicators : List String :=
  ["usecase", "actor", "-->", "<<include>>", "<<extend>>"]

/-- `sum(1 for indicator in indicators if indicator in code_lower)`. -/
def indicatorScore (codeLower : List Char) (inds : List String) : ℕ :=
  (inds.filter (fun i => pyContains codeLower i.data)).length

/-- The score-to-type resolution of `detect_diagram_type_from_plantuml`:
`max` over the scores dict (insertion order SEQUENCE, CLASS, USE_CASE),
all-zero default, first type whose score equals the max. -/
def detectAux (seqScore clsScore ucScore : ℕ) : DiagramType :=
  let maxScore := max seqScore (max clsScore ucScore)
  if maxScore = 0 then DiagramType.USE_CASE
  else if seqScore = maxScore then DiagramType.SEQUENCE
  else if clsScore = maxScore then DiagramType.CLASS
  else if ucScore = maxScore then DiagramType.USE_CASE
  else DiagramType.USE_CASE

/-- `DiagramFactory.detect_diagram_type_from_plantuml`. -/
def detect_diagram_type_from_plantuml (code : String) : DiagramType :=
  let cl := pyLower code.data
  detectAux (indicatorScore cl sequence_indicators)
    (indicatorScore cl class_indicators)
    (indicatorScore cl usecase_indicators)

/-- Modelled from the spec sentence for comparison: highest-scoring type,
ties resolved by the fixed priority order SEQUENCE, CLASS, USE_CASE,
all-zero scores defaulting to USE_CASE. -/
def specDetectType (code : String) : DiagramType :=
  let cl := pyLower code.data
  let q := indicatorScore cl sequence_indicators
  let c := indicatorScore cl class_indicators
  let u := indicatorScore cl usecase_indicators
  if q = 0 ∧ c = 0 ∧ u = 0 then DiagramType.USE_CASE
  else if q ≥ c ∧ q ≥ u then DiagramType.SEQUENCE
  else if c ≥ u then DiagramType.CLASS
  else DiagramType.USE_CASE

/-! ## Phase-3 data model (`ErrorAnalysisResult`, `FeedbackGenerationResult`,
serialized metrics) -/

/-- `ErrorCategory` (error_analyzer.py). -/
structure ErrorCategory where
  category : String
  severity : String
  count : ℤ
  description : String
  examples : List String
deriving DecidableEq, Repr

/-- `ErrorAnalysisResult` (error_analyzer.py).  `severity_breakdown` is a
Python dict, modelled as an association list in insertion order. -/
structure ErrorAnalysisResult where
  diagram_type : DiagramType
  total_errors : ℤ
  error_categories : List ErrorCategory
  severity_breakdown : List (String × ℤ)
  primary_issues : List String
  confidence : ℚ
deriving DecidableEq, Repr

/-- `FeedbackItem` (feedback_generator.py). -/
structure FeedbackItem where
  feedback_type : String
  category : String
  message : String
  severity : String
  actionable : Bool
  examples : List String
deriving DecidableEq, Repr

/-- `FeedbackGenerationResult` (feedback_generator.py). -/
structure FeedbackGenerationResult where
  diagram_type : DiagramType
  feedback_items : List FeedbackItem
  summary : String
  strengths : List String
  areas_for_improvement : List String
  confidence : ℚ
deriving DecidableEq, Repr

/-- `ComponentMetrics` (metrics_engine.py): counts are Python ints,
ratios Python floats. -/
structure ComponentMetrics where
  true_positives : ℤ
  false_positives : ℤ
  false_negatives : ℤ
  precision : ℚ
  «recall» : ℚ
  f1_score : ℚ
  accuracy : ℚ
deriving DecidableEq, Repr

/-- The serialized metrics dict built by `PhaseTwoExtractor._serialize_metrics`,
which is what `ScoreCalculator.calculate_final_score` receives as `metrics`. -/
structure SerializedMetrics where
  diagram_type : String
  component_metrics : List (String × ComponentMetrics)
  overall_metrics : ComponentMetrics
  similarity_score : ℚ
  total_expected : ℤ
  total_actual : ℤ
  total_matched : ℤ
deriving DecidableEq, Repr

/-! ## Score calculator (`ScoreCalculator`) -/

/-- `ScoreBreakdown` (score_calculator.py); the free-text `explanation`
string is not modelled. -/
structure ScoreBreakdown where
  base_score : ℚ
  penalties : List (String × ℚ)
  bonuses : List (String × ℚ)
  final_score : ℚ
  grade_letter : String
deriving DecidableEq, Repr

/-- Dict `get` with default over an association list. -/
def dictGet : List (String × ℚ) → String → ℚ → ℚ
  | [], _, d => d
  | (k2, v) :: rest, k, d => if k2 = k then v else dictGet rest k d

/-- `self.default_weights` of `ScoreCalculator.__init__`. -/
def default_weights : List (String × ℚ) :=
  [("precision", 1/4), ("recall", 1/4), ("f1_score", 7/20), ("accuracy", 3/20)]

/-- `self.severity_penalties` of `ScoreCalculator.__init__`. -/
def severity_penalties : List (String × ℚ) :=
  [("critical", 2), ("high", 3/2), ("medium", 1), ("low", 1/2)]

/-- `ScoreCalculator._calculate_base_score`. -/
def calculateBaseScore (m : SerializedMetrics) (w : List (String × ℚ)) : ℚ :=
  (m.overall_metrics.precision * dictGet w "precision" (1/4) +
   m.overall_metrics.«recall» * dictGet w "recall" (1/4) +
   m.overall_metrics.f1_score * dictGet w "f1_score" (7/20) +
   m.overall_metrics.accuracy * dictGet w "accuracy" (3/20)) * 10

/-- The severity-weighted penalty accumulation loop of
`ScoreCalculator._calculate_penalties`. -/
def severityPenaltySum (breakdown : List (String × ℤ)) : ℚ :=
  breakdown.foldl
    (fun acc sc =>
      if sc.2 > 0 then acc + (sc.2 : ℚ) * dictGet severity_penalties sc.1 1 * (1/10)
      else acc) 0

/-- `ScoreCalculator._calculate_penalties` (dict in insertion order). -/
def calculatePenalties (ea : ErrorAnalysisResult) : List (String × ℚ) :=
  (if ea.total_errors > 0 then
     [("total_errors", min 2 ((ea.total_errors : ℚ) * (1/5)))] else []) ++
  (let sp := severityPenaltySum ea.severity_breakdown
   if sp > 0 then [("severity_based", min 3 sp)] else []) ++
  (if ea.confidence < 7/10 then [("low_confidence", 1/2)] else []) ++
  (if ea.error_categories.any
      (fun c => c.category = "missing_components" &&
        (c.severity = "high" || c.severity = "critical")) then
     [("critical_missing", 1)] else [])

/-- `ScoreCalculator._calculate_bonuses` (dict in insertion order). -/
def calculateBonuses (m : SerializedMetrics) (fr : FeedbackGenerationResult) :
    List (String × ℚ) :=
  (if m.similarity_score > 9/10 then [("high_similarity", 1/2)]
   else if m.similarity_score > 4/5 then [("good_similarity", 3/10)] else []) ++
  (if fr.strengths.length ≥ 2 then [("identified_strengths", 3/10)] else []) ++
  (let perfect := (m.component_metrics.filter (fun p => p.2.f1_score = 1)).length
   if perfect ≠ 0 then [("perfect_components", (perfect : ℚ) * (1/5))] else []) ++
  (if m.overall_metrics.precision > 19/20 then [("high_precision", 3/10)] else [])

/-- Sum of the values of a penalties/bonuses dict. -/
def sumVals (d : List (String × ℚ)) : ℚ := (d.map Prod.snd).sum

/-- Python `round(q)` to an integer: round half to even. -/
def roundHalfEven (q : ℚ) : ℤ :=
  if q - (⌊q⌋ : ℚ) < 1/2 then ⌊q⌋
  else if q - (⌊q⌋ : ℚ) > 1/2 then ⌊q⌋ + 1
  else if 2 ∣ ⌊q⌋ then ⌊q⌋ else ⌊q⌋ + 1

/-- Python `round(q, 2)`. -/
def pyRound2 (q : ℚ) : ℚ := (roundHalfEven (q * 100) : ℚ) / 100

/-- The pre-rounding clamped final score
`max(0.0, min(10.0, base - penalties + bonuses))` of
`ScoreCalculator.calculate_final_score`. -/
def scoreClampedValue (m : SerializedMetrics) (ea : ErrorAnalysisResult)
    (fr : FeedbackGenerationResult) (custom : Option (List (String × ℚ))) : ℚ :=
  let weights := match custom with
    | some w => if w = [] then default_weights else w
    | none => default_weights
  let base := calculateBaseScore m weights
  max 0 (min 10 (base - sumVals (calculatePenalties ea) + sumVals (calculateBonuses m fr)))

/-- `ScoreCalculator.calculate_final_score`.  `custom = none` models
`custom_weights=None`; a Python falsy empty dict also selects the defaults
via `custom_weights or self.default_weights`. -/
def calculate_final_score (m : SerializedMetrics) (ea : ErrorAnalysisResult)
    (fr : FeedbackGenerationResult) (_dt : DiagramType)
    (custom : Option (List (String × ℚ))) : ScoreBreakdown :=
  let weights := match custom with
    | some w => if w = [] then default_weights else w
    | none => default_weights
  let base := calculateBaseScore m weights
  let penalties := calculatePenalties ea
  let bonuses := calculateBonuses m fr
  let final0 := base - sumVals penalties + sumVals bonuses
  let clamped := max 0 (min 10 final0)
  { base_score := pyRound2 base
    penalties := penalties
    bonuses := bonuses
    final_score := pyRound2 clamped
    grade_letter := scoreCalcLetterGrade clamped }

/-! ## difflib sequence matching (used by `MetricsEngine._calculate_similarity`)

`difflib.SequenceMatcher(None, a, b).ratio()` is `2*M/(len(a)+len(b))` where
`M` is the total size of the matching blocks.  `find_longest_match` (with no
junk; the autojunk heuristic only affects strings of 200 or more characters
and is not modelled) returns, among all maximal matching blocks inside the
window, the one starting earliest in `a` and, among those, earliest in `b`;
`get_matching_blocks` recurses on the two sides of that block.
-/

/-- Length of the common prefix of two character lists. -/
def commonPrefixLen : List Char → List Char → ℕ
  | c :: cs, d :: ds => if c = d then 1 + commonPrefixLen cs ds else 0
  | _, _ => 0

/-- The size of the matching block of `a`, `b` starting at `(i, j)`, truncated
to the window ends `ahi`, `bhi`. -/
def blockSizeAt (a b : List Char) (ahi bhi i j : ℕ) : ℕ :=
  min (commonPrefixLen (a.drop i) (b.drop j)) (min (ahi - i) (bhi - j))

/-- Keep the candidate block only when strictly larger: scanning candidates
with `i` ascending then `j` ascending therefore returns a maximal block that
starts earliest in `a`, then earliest in `b`. -/
def betterBlock (best cand : ℕ × ℕ × ℕ) : ℕ × ℕ × ℕ :=
  if cand.2.2 > best.2.2 then cand else best

/-- `SequenceMatcher.find_longest_match` on the window
`[alo, ahi) × [blo, bhi)`, as `(i, j, size)`. -/
def find_longest_match (a b : List Char) (alo ahi blo bhi : ℕ) : ℕ × ℕ × ℕ :=
  ((List.range' alo (ahi - alo)).flatMap (fun i =>
      (List.range' blo (bhi - blo)).map (fun j => (i, j, blockSizeAt a b ahi bhi i j)))).foldl
    betterBlock (alo, blo, 0)

/-- Total size `M` of the matching blocks of `get_matching_blocks`, by the
source's recursion around the longest match; the fuel argument dominates the
recursion depth. -/
def matchingBlocksTotal (a b : List Char) : ℕ → ℕ → ℕ → ℕ → ℕ → ℕ
  | 0, _, _, _, _ => 0
  | fuel + 1, alo, ahi, blo, bhi =>
    let t := find_longest_match a b alo ahi blo bhi
    if t.2.2 = 0 then 0
    else
      matchingBlocksTotal a b fuel alo t.1 blo t.2.1 + t.2.2 +
        matchingBlocksTotal a b fuel (t.1 + t.2.2) ahi (t.2.1 + t.2.2) bhi

/-- `SequenceMatcher(None, a, b).ratio()`; an empty total length gives 1.0
(`_calculate_ratio`). -/
def sequenceMatcherRatio (a b : List Char) : ℚ :=
  if a.length + b.length = 0 then 1
  else 2 * (matchingBlocksTotal a b (a.length + b.length + 1) 0 a.length 0 b.length : ℚ) /
    ((a.length : ℚ) + (b.length : ℚ))

/-! ## Metrics engine (`MetricsEngine`) -/

/-- The fixed bilingual synonym table of `MetricsEngine._are_semantic_variants`. -/
def semanticVariants : List (List String) :=
  [["user", "nguoi dung", "người dùng"],
   ["admin", "quan tri", "quản trị"],
   ["student", "hoc sinh", "học sinh", "sinh vien", "sinh viên"],
   ["teacher", "giao vien", "giáo viên"],
   ["login", "dang nhap", "đăng nhập"],
   ["logout", "dang xuat", "đăng xuất"],
   ["manage", "quan ly", "quản lý"],
   ["create", "tao", "tạo"],
   ["delete", "xoa", "xóa"],
   ["update", "cap nhat", "cập nhật"]]

/-- `MetricsEngine._are_semantic_variants` (arguments already normalized). -/
def are_semantic_variants (s1 s2 : List Char) : Bool :=
  semanticVariants.any (fun g =>
    g.any (fun w => w.data = s1) && g.any (fun w => w.data = s2))

/-- `MetricsEngine._calculate_similarity`: 1.0 on normalized equality, else
the difflib ratio, boosted by +0.2 (capped at 1.0) for synonym-table pairs. -/
def calculate_similarity (s1 s2 : List Char) : ℚ :=
  if pyStrip (pyLower s1) = pyStrip (pyLower s2) then 1
  else if are_semantic_variants (pyStrip (pyLower s1)) (pyStrip (pyLower s2)) then
    min 1 (sequenceMatcherRatio (pyStrip (pyLower s1)) (pyStrip (pyLower s2)) + 1/5)
  else sequenceMatcherRatio (pyStrip (pyLower s1)) (pyStrip (pyLower s2))

/-- The inner best-candidate scan of `MetricsEngine._semantic_matching`:
skip used actual items, keep a candidate when its similarity is at least the
threshold and strictly above the best so far. -/
def findBest (threshold : ℚ) (e : List Char) (used : List (List Char)) :
    List (List Char) → Option (List Char) × ℚ → Option (List Char) × ℚ
  | [], best => best
  | act :: rest, best =>
    if act ∈ used then findBest threshold e used rest best
    else
      let sim := calculate_similarity e act
      if sim ≥ threshold ∧ sim > best.2 then findBest threshold e used rest (some act, sim)
      else findBest threshold e used rest best

/-- The outer loop of `_semantic_matching`, with state
(matched pairs, used actual items).  `if best_match:` is Python truthiness:
a `None` best and an empty-string best are both discarded. -/
def smAux (threshold : ℚ) (actual : List (List Char)) :
    List (List Char) → List (List Char × List Char) × List (List Char) →
    List (List Char × List Char) × List (List Char)
  | [], st => st
  | e :: rest, st =>
    match (findBest threshold e st.2 actual (none, 0)).1 with
    | some b =>
      if b = [] then smAux threshold actual rest st
      else smAux threshold actual rest (st.1 ++ [(e, b)], st.2 ++ [b])
    | none => smAux threshold actual rest st

/-- `MetricsEngine._semantic_matching` (sets modelled as lists in iteration
order; Python iterates one set object the same way in both loops). -/
def semantic_matching (threshold : ℚ) (expected actual : List (List Char)) :
    List (List Char × List Char) :=
  (smAux threshold actual expected ([], [])).1

/-- The shared ratio derivation of `_calculate_component_metrics` and
`_aggregate_metrics`: precision, recall, F1 and accuracy from the three
counts, each ratio 0 when its denominator is 0 (the sources repeat these
four formulas verbatim in both methods). -/
def deriveMetrics (tp fp fn : ℤ) : ComponentMetrics :=
  { true_positives := tp
    false_positives := fp
    false_negatives := fn
    precision := if tp + fp > 0 then (tp : ℚ) / ((tp : ℚ) + (fp : ℚ)) else 0
    «recall» := if tp + fn > 0 then (tp : ℚ) / ((tp : ℚ) + (fn : ℚ)) else 0
    f1_score :=
      (let p := if tp + fp > 0 then (tp : ℚ) / ((tp : ℚ) + (fp : ℚ)) else 0
       let r := if tp + fn > 0 then (tp : ℚ) / ((tp : ℚ) + (fn : ℚ)) else 0
       if p + r > 0 then 2 * (p * r) / (p + r) else 0)
    accuracy := if tp + fp + fn > 0 then (tp : ℚ) / ((tp : ℚ) + (fp : ℚ) + (fn : ℚ)) else 0 }

/-- `MetricsEngine._calculate_component_metrics`. -/
def calculate_component_metrics (threshold : ℚ)
    (expected actual : List (List Char)) : ComponentMetrics :=
  let matched := semantic_matching threshold expected actual
  let tp : ℤ := matched.length
  deriveMetrics tp ((actual.length : ℤ) - tp) ((expected.length : ℤ) - tp)

/-- `MetricsEngine._aggregate_metrics` (micro-average: sum the counts, then
derive the ratios). -/
def aggregate_metrics (ms : List ComponentMetrics) : ComponentMetrics :=
  deriveMetrics ((ms.map (·.true_positives)).sum)
    ((ms.map (·.false_positives)).sum) ((ms.map (·.false_negatives)).sum)

/-- The invariants claimed for every `ComponentMetrics` value: ratios lie in
[0, 1], each ratio is 0 when its denominator is 0, and F1 is 0 when
precision + recall is 0. -/
def metricsInvariant (m : ComponentMetrics) : Prop :=
  (0 ≤ m.precision ∧ m.precision ≤ 1) ∧
  (0 ≤ m.«recall» ∧ m.«recall» ≤ 1) ∧
  (0 ≤ m.f1_score ∧ m.f1_score ≤ 1) ∧
  (0 ≤ m.accuracy ∧ m.accuracy ≤ 1) ∧
  (m.true_positives + m.false_positives = 0 → m.precision = 0) ∧
  (m.true_positives + m.false_negatives = 0 → m.«recall» = 0) ∧
  (m.precision + m.«recall» = 0 → m.f1_score = 0) ∧
  (m.true_positives + m.false_positives + m.false_negatives = 0 → m.accuracy = 0)

/-- Concrete metrics input for the C1 counterexample: all four overall ratios
equal 0.8996, no penalties and no bonuses apply. -/
def c1CexMetrics : SerializedMetrics :=
  { diagram_type := "use_case"
    component_metrics := []
    overall_metrics :=
      { true_positives := 0, false_positives := 0, false_negatives := 0
        precision := 8996/10000, «recall» := 8996/10000
        f1_score := 8996/10000, accuracy := 8996/10000 }
    similarity_score := 1/2
    total_expected := 0, total_actual := 0, total_matched := 0 }

/-- Concrete error-analysis input for the C1 counterexample: no errors,
confident analysis. -/
def c1CexErrors : ErrorAnalysisResult :=
  { diagram_type := DiagramType.USE_CASE, total_errors := 0
    error_categories := [], severity_breakdown := []
    primary_issues := [], confidence := 9/10 }

/-- Concrete feedback input for the C1 counterexample: no strengths. -/
def c1CexFeedback : FeedbackGenerationResult :=
  { diagram_type := DiagramType.USE_CASE, feedback_items := []
    summary := "", strengths := [], areas_for_improvement := []
    confidence := 9/10 }

/-! ## Phase-1 validation (`NormalizationValidator`)

`validate_normalization` runs the local deterministic syntax checks, combines
their issues with the issues parsed from the AI validation round-trip, and
builds the final `ValidationResult`.  The parsed AI outcome (booleans,
confidence, issue list) is external data here, modelled by `AIValidation`.
-/

/-- `ValidationIssue` (normalization_validator.py). -/
structure ValidationIssue where
  issue_type : String
  severity : String
  description : String
  location : String
  suggestion : String
deriving DecidableEq, Repr

/-- `ValidationResult` (normalization_validator.py). -/
structure ValidationResult where
  is_valid : Bool
  validated_plantuml : List Char
  issues : List ValidationIssue
  syntax_valid : Bool
  logic_preserved : Bool
  conventions_matched : Bool
  confidence : ℚ
deriving DecidableEq, Repr

/-- The fields of the AI validation outcome that
`validate_normalization` reads from `_ai_validate_normalization`
(`logic_preserved`, `conventions_matched`, `confidence`, `issues`). -/
structure AIValidation where
  logic_preserved : Bool
  conventions_matched : Bool
  confidence : ℚ
  issues : List ValidationIssue
deriving DecidableEq, Repr

/-- The missing-`@startuml` issue of `_validate_syntax`. -/
def startMarkerIssue : ValidationIssue :=
  { issue_type := "syntax", severity := "high"
    description := "PlantUML code should start with @startuml"
    location := "beginning", suggestion := "Add @startuml at the beginning" }

/-- The missing-`@enduml` issue of `_validate_syntax`. -/
def endMarkerIssue : ValidationIssue :=
  { issue_type := "syntax", severity := "high"
    description := "PlantUML code should end with @enduml"
    location := "end", suggestion := "Add @enduml at the end" }

/-- The unmatched-quotes issue of `_validate_syntax`. -/
def unmatchedQuotesIssue : ValidationIssue :=
  { issue_type := "syntax", severity := "medium"
    description := "Unmatched quotes detected"
    location := "throughout", suggestion := "Ensure all quotes are properly closed" }

/-- The multiple-arrows issue of `_validate_syntax` at 1-based line `i`. -/
def multiArrowIssue (i : ℕ) : ValidationIssue :=
  { issue_type := "syntax", severity := "medium"
    description := "Multiple relationship arrows in single line"
    location := "line " ++ toString i
    suggestion := "Split into separate relationship lines" }

/-- The apostrophe character (PlantUML comment marker). -/
def apostrophe : Char := Char.ofNat 39

/-- The per-line loop of `_validate_syntax`: skip blank lines and comment
lines, flag a line holding more than one relationship arrow. -/
def multiArrowIssues (code : List Char) : List ValidationIssue :=
  ((pySplitLines code).enumFrom 1).filterMap (fun p =>
    let line := pyStrip p.2
    if line = [] ∨ pyStartsWith line [apostrophe] then none
    else if (pyContains line "-->".data ∨ pyContains line "--|>".data) ∧
        pyCount line "-->".data + pyCount line "--|>".data > 1 then
      some (multiArrowIssue p.1)
    else none)

/-- `NormalizationValidator._validate_syntax`: the four checks, appending
their issues in source order. -/
def validate_syntax_issues (code : List Char) : List ValidationIssue :=
  (if ¬ pyStartsWith (pyStrip code) "@start".data then [startMarkerIssue] else []) ++
  (if ¬ pyEndsWith (pyStrip code) "@enduml".data then [endMarkerIssue] else []) ++
  (if pyCount code ['"'] % 2 ≠ 0 then [unmatchedQuotesIssue] else []) ++
  multiArrowIssues code

/-- `NormalizationValidator.validate_normalization`: syntax issues plus AI
issues; `is_valid` is recomputed from the combined issue list alone
(`len([i for i in all_issues if i.severity in ["high", "critical"]]) == 0`). -/
def validate_normalization (normalized_plantuml : List Char)
    (ai : AIValidation) : ValidationResult :=
  let syntax_issues := validate_syntax_issues normalized_plantuml
  let all_issues := syntax_issues ++ ai.issues
  { is_valid := decide ((all_issues.filter
      (fun i => i.severity = "high" ∨ i.severity = "critical")).length = 0)
    validated_plantuml := normalized_plantuml
    issues := all_issues
    syntax_valid := decide (syntax_issues.length = 0)
    logic_preserved := ai.logic_preserved
    conventions_matched := ai.conventions_matched
    confidence := ai.confidence }

/-- Concrete inputs for the C4 counterexample: a well-formed two-line diagram
text and an AI outcome reporting `LOGIC_PRESERVED: false` with no issues
(as `_parse_validation_response` yields for such a response). -/
def c4Code : List Char := "@startuml\n@enduml".data

/-- The AI outcome of the C4 counterexample. -/
def c4AI : AIValidation :=
  { logic_preserved := false, conventions_matched := true
    confidence := 4/5, issues := [] }

/-! ## A small regular-expression engine

The two diagram parsers drive everything through `re.finditer`, `re.match`
and `re.sub`.  The extraction patterns are embedded as abstract syntax below
and executed by a continuation-passing backtracking matcher with Python's
semantics: ordered alternation, greedy repetition with backtracking,
numbered capture groups, backreferences and negative lookahead.  Character
classes are modelled at ASCII granularity (`\w` is `[a-zA-Z0-9_]`, `\s` is
the ASCII whitespace set), matching `re`'s behaviour on the ASCII inputs the
patterns are built from.  Repetition is fuel-based so every definition
evaluates by reduction; the fuel passed in dominates the backtracking depth
(one unit per nested call, and every repetition step consumes input).
-/

/-- One item of a character class. -/
inductive ClsItem where
  | single (c : Char)
  | space
  | word
deriving DecidableEq, Repr

/-- A character class: a set of items, possibly negated (`[^...]`). -/
structure CharCls where
  negated : Bool
  items : List ClsItem
deriving DecidableEq, Repr

/-- Python `\s` at ASCII granularity. -/
def isPySpace (c : Char) : Bool :=
  c = ' ' ∨ c = '\t' ∨ c = '\n' ∨ c = '\r' ∨ c = Char.ofNat 11 ∨ c = Char.ofNat 12

/-- Python `\w` at ASCII granularity. -/
def isPyWord (c : Char) : Bool :=
  c.isAlpha ∨ c.isDigit ∨ c = '_'

/-- Does one class item match a character (case-insensitively when asked)? -/
def clsItemMatch (icase : Bool) : ClsItem → Char → Bool
  | ClsItem.single c, d => if icase then c.toLower = d.toLower else c = d
  | ClsItem.space, d => isPySpace d
  | ClsItem.word, d => isPyWord d

/-- Does a character class match a character? -/
def clsMatch (icase : Bool) (cls : CharCls) (d : Char) : Bool :=
  let m := cls.items.any (fun it => clsItemMatch icase it d)
  if cls.negated then !m else m

/-- Regular-expression abstract syntax: empty string, one-character class,
concatenation, ordered alternation, greedy star, capture group,
backreference, negative lookahead. -/
inductive Rx where
  | eps
  | cls (c : CharCls)
  | seq (a b : Rx)
  | alt (a b : Rx)
  | star (r : Rx)
  | group (idx : ℕ) (r : Rx)
  | backref (idx : ℕ)
  | nla (r : Rx)
deriving DecidableEq, Repr

/-- Capture-group store: slot 0 is the whole match. -/
def Caps := List (Option (List Char))

/-- Read capture slot `i` (`None` when the group did not participate). -/
def getCap (caps : Caps) (i : ℕ) : Option (List Char) :=
  List.getD caps i none

/-- Write capture slot `i`. -/
def setCap (caps : Caps) (i : ℕ) (v : List Char) : Caps :=
  List.set caps i (some v)

/-- Case-insensitive-capable prefix test used by backreferences; returns the
rest of the input on success. -/
def prefDrop (icase : Bool) : List Char → List Char → Option (List Char)
  | [], s => some s
  | _ :: _, [] => none
  | p :: ps, c :: cs =>
    if (if icase then p.toLower = c.toLower else p = c) then prefDrop icase ps cs
    else none

/-- The backtracking matcher.  `k` is the success continuation, receiving
the remaining input and the captures; alternatives are tried in order, the
star is greedy with backtracking, an empty-match repetition step stops the
repetition (as `re` does), and a negative lookahead succeeds exactly when
its body cannot match. -/
def rxMatch (icase : Bool) :
    ℕ → Rx → List Char → Caps →
    (List Char → Caps → Option (List Char × Caps)) → Option (List Char × Caps)
  | 0, _, _, _, _ => none
  | _ + 1, Rx.eps, s, caps, k => k s caps
  | _ + 1, Rx.cls c, s, caps, k =>
    match s with
    | [] => none
    | d :: rest => if clsMatch icase c d then k rest caps else none
  | fuel + 1, Rx.seq a b, s, caps, k =>
    rxMatch icase fuel a s caps (fun s2 c2 => rxMatch icase fuel b s2 c2 k)
  | fuel + 1, Rx.alt a b, s, caps, k =>
    match rxMatch icase fuel a s caps k with
    | some res => some res
    | none => rxMatch icase fuel b s caps k
  | fuel + 1, Rx.star r, s, caps, k =>
    match rxMatch icase fuel r s caps (fun s2 c2 =>
        if s2.length < s.length then rxMatch icase fuel (Rx.star r) s2 c2 k
        else none) with
    | some res => some res
    | none => k s caps
  | fuel + 1, Rx.group i r, s, caps, k =>
    rxMatch icase fuel r s caps (fun s2 c2 =>
      k s2 (setCap c2 i (s.take (s.length - s2.length))))
  | _ + 1, Rx.backref i, s, caps, k =>
    match getCap caps i with
    | none => none
    | some v =>
      match prefDrop icase v s with
      | some rest => k rest caps
      | none => none
  | fuel + 1, Rx.nla r, s, caps, k =>
    match rxMatch icase fuel r s caps (fun s2 c2 => some (s2, c2)) with
    | some _ => none
    | none => k s caps

/-- Number of syntax nodes of a pattern, used to size the fuel. -/
def rxSize : Rx → ℕ
  | Rx.eps => 1
  | Rx.cls _ => 1
  | Rx.seq a b => rxSize a + rxSize b + 1
  | Rx.alt a b => rxSize a + rxSize b + 1
  | Rx.star r => rxSize r + 1
  | Rx.group _ r => rxSize r + 1
  | Rx.backref _ => 1
  | Rx.nla r => rxSize r + 1

/-- Fuel that dominates the matcher's call depth on the given input. -/
def rxFuel (r : Rx) (s : List Char) : ℕ :=
  (rxSize r + 2) * (s.length + 2)

/-- Try to match at the current position; on success return the remaining
input and the captures with slot 0 set to the whole match. -/
def rxMatchHere (icase : Bool) (r : Rx) (ng : ℕ) (s : List Char) :
    Option (List Char × Caps) :=
  match rxMatch icase (rxFuel r s) r s (List.replicate (ng + 1) none)
      (fun rest caps => some (rest, caps)) with
  | some (rest, caps) => some (rest, setCap caps 0 (s.take (s.length - rest.length)))
  | none => none

/-- `re.finditer`: scan left to right, non-overlapping, advancing one
character past an empty match (our patterns never match empty), also trying
the empty suffix at the end. -/
def scanAux (icase : Bool) (r : Rx) (ng : ℕ) : ℕ → List Char → List Caps
  | 0, _ => []
  | fuel + 1, s =>
    match rxMatchHere icase r ng s with
    | some (rest, caps) =>
      if rest.length < s.length then caps :: scanAux icase r ng fuel rest
      else
        match s with
        | [] => [caps]
        | _ :: t => caps :: scanAux icase r ng fuel t
    | none =>
      match s with
      | [] => []
      | _ :: t => scanAux icase r ng fuel t

/-- `re.finditer(pattern, s)` as the list of capture stores of the matches. -/
def finditer (icase : Bool) (r : Rx) (ng : ℕ) (s : List Char) : List Caps :=
  scanAux icase r ng (s.length + 1) s

/-- `re.match(pattern, s)`: anchored at the start only. -/
def rxMatchStart (icase : Bool) (r : Rx) (ng : ℕ) (s : List Char) : Option Caps :=
  match rxMatchHere icase r ng s with
  | some (_, caps) => some caps
  | none => none

/-! ### Pattern-building shorthand -/

/-- A literal character. -/
def rxc (c : Char) : Rx := Rx.cls ⟨false, [ClsItem.single c]⟩

/-- A literal string. -/
def rxs (s : String) : Rx :=
  s.data.foldr (fun c r => Rx.seq (rxc c) r) Rx.eps

/-- A positive character class from explicit characters. -/
def oneOf (cs : List Char) : Rx := Rx.cls ⟨false, cs.map ClsItem.single⟩

/-- A negated character class from explicit items. -/
def noneOf (its : List ClsItem) : Rx := Rx.cls ⟨true, its⟩

/-- `\s`. -/
def rxWs : Rx := Rx.cls ⟨false, [ClsItem.space]⟩

/-- `\s*`. -/
def wsStar : Rx := Rx.star rxWs

/-- `\s+`. -/
def wsPlus : Rx := Rx.seq rxWs wsStar

/-- `\w`. -/
def rxWord : Rx := Rx.cls ⟨false, [ClsItem.word]⟩

/-- `\w+`. -/
def wordPlus : Rx := Rx.seq rxWord (Rx.star rxWord)

/-- `.` (any character but a newline; no pattern below relies on DOTALL). -/
def rxDot : Rx := Rx.cls ⟨true, [ClsItem.single '\n']⟩

/-- `.+`. -/
def dotPlus : Rx := Rx.seq rxDot (Rx.star rxDot)

/-- Greedy `?`. -/
def rxOpt (r : Rx) : Rx := Rx.alt r Rx.eps

/-- `e+` for a class-like body (no captures inside). -/
def rxPlus (r : Rx) : Rx := Rx.seq r (Rx.star r)

/-- Sequence of several parts. -/
def rxCat (rs : List Rx) : Rx := rs.foldr Rx.seq Rx.eps

/-- Ordered alternation of several branches. -/
def rxAlts : List Rx → Rx
  | [] => Rx.eps
  | [r] => r
  | r :: rest => Rx.alt r (rxAlts rest)

/-- The double-quote character. -/
def dquote : Char := '"'

/-! ## Cleaning (`_clean_plantuml_code`) -/

/-- `re.sub(r"'.*$", "", code, flags=re.MULTILINE)`: on each line drop
everything from the first apostrophe on. -/
def stripLineComments (s : List Char) : List Char :=
  List.intercalate ['\n']
    ((pySplitLines s).map (fun l => l.takeWhile (fun c => c ≠ apostrophe)))

/-- Case-insensitive literal-prefix test. -/
def startsWithIC (s : List Char) (p : String) : Bool :=
  pyStartsWith (pyLower s) (pyLower p.data)

/-- `re.sub(r'@startuml.*?\n', '', code, flags=re.IGNORECASE)`: remove each
case-insensitive `@startuml` together with the rest of its line and the
newline; an occurrence on the last line (no newline) does not match. -/
def subStartuml : ℕ → List Char → List Char
  | 0, s => s
  | fuel + 1, s =>
    match s with
    | [] => []
    | c :: t =>
      if startsWithIC s "@startuml" then
        let afterKw := s.drop 9
        let lineRest := afterKw.takeWhile (fun c => c ≠ '\n')
        let afterLine := afterKw.drop lineRest.length
        match afterLine with
        | '\n' :: u => subStartuml fuel u
        | _ => c :: subStartuml fuel t
      else c :: subStartuml fuel t

/-- `re.sub(r'@enduml.*', '', code, flags=re.IGNORECASE)`: remove each
case-insensitive `@enduml` together with the rest of its line. -/
def subEnduml : ℕ → List Char → List Char
  | 0, s => s
  | fuel + 1, s =>
    match s with
    | [] => []
    | c :: t =>
      if startsWithIC s "@enduml" then
        let afterKw := s.drop 7
        let lineRest := afterKw.takeWhile (fun c => c ≠ '\n')
        subEnduml fuel (afterKw.drop lineRest.length)
      else c :: subEnduml fuel t

/-- `re.sub(r'\s+', ' ', code)`: collapse every whitespace run to one
space. -/
def collapseWs : ℕ → List Char → List Char
  | 0, s => s
  | fuel + 1, s =>
    match s with
    | [] => []
    | c :: t =>
      if isPySpace c then ' ' :: collapseWs fuel (t.dropWhile isPySpace)
      else c :: collapseWs fuel t

/-- `UseCaseParser._clean_plantuml_code`: comments, markers, whitespace
collapse, strip. -/
def cleanUseCaseCode (code : List Char) : List Char :=
  let c1 := stripLineComments code
  let c2 := subStartuml (c1.length + 1) c1
  let c3 := subEnduml (c2.length + 1) c2
  pyStrip (collapseWs (c3.length + 1) c3)

/-- `ClassDiagramParser._clean_plantuml_code`: comments and markers only
(no whitespace collapse). -/
def cleanClassCode (code : List Char) : List Char :=
  let c1 := stripLineComments code
  let c2 := subStartuml (c1.length + 1) c1
  pyStrip (subEnduml (c2.length + 1) c2)

/-! ## Use-case diagram model and parser (`UseCaseParser`) -/

/-- `Actor` (uml_components.py); the parser always constructs it with only
the name set. -/
structure Actor where
  name : List Char
  description : Option String := none
  stereotype : Option String := none
deriving DecidableEq, Repr

/-- `UseCase` (uml_components.py); likewise name-only at construction. -/
structure UseCase where
  name : List Char
  description : Option String := none
  primary_actor : Option String := none
deriving DecidableEq, Repr

/-- `Relationship` (uml_components.py). -/
structure URelationship where
  source : List Char
  target : List Char
  relationship_type : String
  label : Option (List Char)
deriving DecidableEq, Repr

/-- `UMLDiagram` (uml_components.py). -/
structure UMLDiagram where
  actors : List Actor
  use_cases : List UseCase
  relationships : List URelationship
  title : Option String := none
deriving DecidableEq, Repr

/-- `["\']`. -/
def quoteCls : Rx := oneOf [dquote, apostrophe]

/-- `actor\s+(["\']?)([^"\'\s]+)\1`. -/
def actorP1 : Rx :=
  rxCat [rxs "actor", wsPlus, Rx.group 1 (rxOpt quoteCls),
    Rx.group 2 (rxPlus (noneOf [ClsItem.single dquote, ClsItem.single apostrophe, ClsItem.space])),
    Rx.backref 1]

/-- `actor\s+(["\'])([^"\']+)\1\s+as\s+(\w+)`. -/
def actorP2 : Rx :=
  rxCat [rxs "actor", wsPlus, Rx.group 1 quoteCls,
    Rx.group 2 (rxPlus (noneOf [ClsItem.single dquote, ClsItem.single apostrophe])),
    Rx.backref 1, wsPlus, rxs "as", wsPlus, Rx.group 3 wordPlus]

/-- `:([^:]+):`. -/
def colonNameP : Rx :=
  rxCat [rxc ':', Rx.group 1 (rxPlus (noneOf [ClsItem.single ':'])), rxc ':']

/-- `\(([^)]+)\)`. -/
def parenNameP : Rx :=
  rxCat [rxc '(', Rx.group 1 (rxPlus (noneOf [ClsItem.single ')'])), rxc ')']

/-- `usecase\s+(["\']?)([^"\'\s]+)\1`. -/
def usecaseP1 : Rx :=
  rxCat [rxs "usecase", wsPlus, Rx.group 1 (rxOpt quoteCls),
    Rx.group 2 (rxPlus (noneOf [ClsItem.single dquote, ClsItem.single apostrophe, ClsItem.space])),
    Rx.backref 1]

/-- `usecase\s+(["\'])([^"\']+)\1\s+as\s+(\w+)`. -/
def usecaseP2 : Rx :=
  rxCat [rxs "usecase", wsPlus, Rx.group 1 quoteCls,
    Rx.group 2 (rxPlus (noneOf [ClsItem.single dquote, ClsItem.single apostrophe])),
    Rx.backref 1, wsPlus, rxs "as", wsPlus, Rx.group 3 wordPlus]

/-- `([^-\s]+)\s*(-->|\.\.>|--)\s*([^:\s]+)(?:\s*:\s*(.+))?`. -/
def relP1 : Rx :=
  rxCat [Rx.group 1 (rxPlus (noneOf [ClsItem.single '-', ClsItem.space])), wsStar,
    Rx.group 2 (rxAlts [rxs "-->", rxs "..>", rxs "--"]), wsStar,
    Rx.group 3 (rxPlus (noneOf [ClsItem.single ':', ClsItem.space])),
    rxOpt (rxCat [wsStar, rxc ':', wsStar, Rx.group 4 dotPlus])]

/-- `([^<\s]+)\s*(<--|\.\.<|<--)\s*([^:\s]+)(?:\s*:\s*(.+))?` (the source
repeats `<--` in the alternation). -/
def relP2 : Rx :=
  rxCat [Rx.group 1 (rxPlus (noneOf [ClsItem.single '<', ClsItem.space])), wsStar,
    Rx.group 2 (rxAlts [rxs "<--", rxs "..<", rxs "<--"]), wsStar,
    Rx.group 3 (rxPlus (noneOf [ClsItem.single ':', ClsItem.space])),
    rxOpt (rxCat [wsStar, rxc ':', wsStar, Rx.group 4 dotPlus])]

/-- `(\w+)\s*-->`. -/
def relActorP1 : Rx := rxCat [Rx.group 1 wordPlus, wsStar, rxs "-->"]

/-- `-->\s*(\w+)`. -/
def relActorP2 : Rx := rxCat [rxs "-->", wsStar, Rx.group 1 wordPlus]

/-- `(\w+)\s*<--`. -/
def relActorP3 : Rx := rxCat [Rx.group 1 wordPlus, wsStar, rxs "<--"]

/-- `<--\s*(\w+)`. -/
def relActorP4 : Rx := rxCat [rxs "<--", wsStar, Rx.group 1 wordPlus]

/-- `["\']([^"\']+)["\']`. -/
def quotedNameP : Rx :=
  rxCat [quoteCls,
    Rx.group 1 (rxPlus (noneOf [ClsItem.single dquote, ClsItem.single apostrophe])),
    quoteCls]

/-- Python truthiness of a captured group: `None` and the empty string are
both falsy. -/
def truthyCap (g : Option (List Char)) : Bool :=
  match g with
  | none => false
  | some v => !v.isEmpty

/-- Strip the given characters from both ends (`str.strip('"\'')`). -/
def stripChars (cs : List Char) (s : List Char) : List Char :=
  ((s.dropWhile (fun c => cs.contains c)).reverse.dropWhile
    (fun c => cs.contains c)).reverse

/-- Prefix of `s` before the first occurrence of `pat`
(`s.split(pat)[0]`). -/
def takeUntilSub : ℕ → List Char → List Char → List Char
  | 0, _, _ => []
  | fuel + 1, s, pat =>
    if pat <+: s then []
    else
      match s with
      | [] => []
      | c :: t => c :: takeUntilSub fuel t pat

/-- `UseCaseParser._clean_component_name`: quote stripping, alias removal,
bracket removal, strip; `None` becomes the empty name. -/
def clean_component_name (g : Option (List Char)) : List Char :=
  match g with
  | none => []
  | some name =>
    if name.isEmpty then []
    else
      let n1 := stripChars [dquote, apostrophe] name
      let n2 :=
        if pyContains n1 " as ".data then
          pyStrip (takeUntilSub (n1.length + 1) n1 " as ".data)
        else n1
      pyStrip (n2.filter (fun c => !("<>(){}[]".data.contains c)))

/-- The name selection of the actor/use-case extraction loops:
`group(2) if group(1) else group(1)` when the pattern has at least two
groups, else `group(1)`. -/
def nameFromMatch (ngroups : ℕ) (caps : Caps) : Option (List Char) :=
  if ngroups ≥ 2 then
    (if truthyCap (getCap caps 1) then getCap caps 2 else getCap caps 1)
  else getCap caps 1

/-- `UseCaseParser._looks_like_actor`. -/
def looks_like_actor (name : List Char) : Bool :=
  (pySplitWs name).length ≤ 2 ∨
  (["user", "admin", "customer", "client", "system", "manager",
    "operator"].any (fun k => pyContains (pyLower name) k.data)) ∨
  pyEndsWith name "er".data ∨ pyEndsWith name "or".data

/-- `UseCaseParser._looks_like_usecase`. -/
def looks_like_usecase (name : List Char) : Bool :=
  2 ≤ (pySplitWs name).length ∨
  (["login", "create", "delete", "update", "manage", "view", "search",
    "add", "remove"].any (fun k => pyContains (pyLower name) k.data)) ∨
  (["create", "delete", "update", "manage",
    "view"].any (fun k => pyStartsWith (pyLower name) k.data))

/-- Keep only first occurrences (the Python sources collect into a `set`,
whose iteration order is unspecified; only membership matters to the
properties proved here). -/
def dedupKeepFirst (l : List (List Char)) : List (List Char) :=
  l.foldl (fun acc x => if acc.contains x then acc else acc ++ [x]) []

/-- `UseCaseParser._extract_actors_from_relationships`. -/
def extract_actors_from_relationships (code : List Char) : List (List Char) :=
  dedupKeepFirst
    (([relActorP1, relActorP2, relActorP3, relActorP4].flatMap fun p =>
      (finditer true p 1 code).filterMap fun caps =>
        let name := clean_component_name (getCap caps 1)
        if ¬ name.isEmpty ∧ looks_like_actor name then some name else none))

/-- `UseCaseParser._extract_usecases_from_relationships` (this finditer has
no IGNORECASE flag in the source). -/
def extract_usecases_from_relationships (code : List Char) : List (List Char) :=
  dedupKeepFirst
    ((finditer false quotedNameP 1 code).filterMap fun caps =>
      let name := pyStrip ((getCap caps 1).getD [])
      if ¬ name.isEmpty ∧ looks_like_usecase name then some name else none)

/-- The shared pattern-loop of `_extract_actors`/`_extract_use_cases`:
first match wins, dedupe by exact name. -/
def extractNamesByPatterns (pats : List (Rx × ℕ)) (code : List Char)
    (init : List (List Char)) : List (List Char) :=
  pats.foldl (fun names pr =>
    (finditer true pr.1 pr.2 code).foldl (fun ns caps =>
      let name := clean_component_name (nameFromMatch pr.2 caps)
      if ¬ name.isEmpty ∧ ¬ ns.contains name then ns ++ [name] else ns) names) init

/-- `UseCaseParser._extract_actors` (as the ordered list of actor names). -/
def extract_actors (code : List Char) : List (List Char) :=
  let base := extractNamesByPatterns
    [(actorP1, 2), (actorP2, 3), (colonNameP, 1), (parenNameP, 1)] code []
  (extract_actors_from_relationships code).foldl
    (fun ns n => if ¬ ns.contains n then ns ++ [n] else ns) base

/-- `UseCaseParser._extract_use_cases` (as the ordered list of names). -/
def extract_use_cases (code : List Char) : List (List Char) :=
  let base := extractNamesByPatterns
    [(usecaseP1, 2), (usecaseP2, 3), (parenNameP, 1)] code []
  (extract_usecases_from_relationships code).foldl
    (fun ns n => if ¬ ns.contains n then ns ++ [n] else ns) base

/-- `UseCaseParser._determine_relationship_type`. -/
def determine_relationship_type (arrow : List Char)
    (label : Option (List Char)) : String :=
  if truthyCap label ∧ pyContains (pyLower (label.getD [])) "include".data then
    "include"
  else if truthyCap label ∧ pyContains (pyLower (label.getD [])) "extend".data then
    "extend"
  else if arrow = "-->".data then "association"
  else if arrow = "..>".data then "dependency"
  else if arrow = "--".data then "association"
  else "association"

/-- `UseCaseParser._extract_relationships`: build each candidate from the
match groups and keep it only when both endpoints resolve to already
extracted actor or use-case names. -/
def extract_relationships_uc (code : List Char)
    (actorNames ucNames : List (List Char)) : List URelationship :=
  [relP1, relP2].flatMap fun p =>
    (finditer true p 4 code).filterMap fun caps =>
      let source := clean_component_name (getCap caps 1)
      let target := clean_component_name (getCap caps 3)
      let label : Option (List Char) :=
        if truthyCap (getCap caps 4) then getCap caps 4 else none
      let arrow := (getCap caps 2).getD []
      if (actorNames.contains source ∨ ucNames.contains source) ∧
          (actorNames.contains target ∨ ucNames.contains target) then
        some { source := source, target := target
               relationship_type := determine_relationship_type arrow label
               label := label }
      else none

/-- `UseCaseParser.parse_diagram`. -/
def parse_diagram_uc (code : List Char) : UMLDiagram :=
  let cleaned := cleanUseCaseCode code
  let actors := extract_actors cleaned
  let ucs := extract_use_cases cleaned
  { actors := actors.map (fun n => { name := n })
    use_cases := ucs.map (fun n => { name := n })
    relationships := extract_relationships_uc cleaned actors ucs }

/-! ## Class diagram model and parser (`ClassDiagramParser`) -/

/-- `Visibility` (class_diagram_models.py). -/
inductive Visibility where
  | PUBLIC
  | PRIVATE
  | PROTECTED
  | PACKAGE
deriving DecidableEq, Repr

/-- `ClassAttribute` (class_diagram_models.py). -/
structure ClassAttribute where
  name : List Char
  type : Option (List Char)
  visibility : Visibility
  is_static : Bool
  default_value : Option (List Char)
deriving DecidableEq, Repr

/-- `ClassMethod` (class_diagram_models.py). -/
structure ClassMethod where
  name : List Char
  parameters : List (List Char)
  return_type : Option (List Char)
  visibility : Visibility
  is_static : Bool
  is_abstract : Bool
deriving DecidableEq, Repr

/-- `UMLClass` (class_diagram_models.py). -/
structure UMLClass where
  name : List Char
  attributes : List ClassAttribute := []
  methods : List ClassMethod := []
  stereotype : Option String := none
  is_abstract : Bool := false
deriving DecidableEq, Repr

/-- `RelationshipType` (class_diagram_models.py). -/
inductive CRelType where
  | INHERITANCE
  | COMPOSITION
  | AGGREGATION
  | ASSOCIATION
  | DEPENDENCY
  | REALIZATION
deriving DecidableEq, Repr

/-- `ClassRelationship` (class_diagram_models.py). -/
structure ClassRelationship where
  source : List Char
  target : List Char
  relationship_type : CRelType
  label : Option (List Char)
deriving DecidableEq, Repr

/-- `ClassDiagram` (class_diagram_models.py). -/
structure ClassDiagram where
  classes : List UMLClass
  relationships : List ClassRelationship
  title : Option String := none
  packages : List String := []
deriving DecidableEq, Repr

/-- `class\s+(\w+)\s*{([^}]*)}`. -/
def classBodyP : Rx :=
  rxCat [rxs "class", wsPlus, Rx.group 1 wordPlus, wsStar, rxc '{',
    Rx.group 2 (Rx.star (noneOf [ClsItem.single '}'])), rxc '}']

/-- `class\s+(\w+)(?!\s*{)` (negative lookahead). -/
def simpleClassP : Rx :=
  rxCat [rxs "class", wsPlus, Rx.group 1 wordPlus,
    Rx.nla (rxCat [wsStar, rxc '{'])]

/-- `abstract\s+class\s+(\w+)`. -/
def abstractClassP : Rx :=
  rxCat [rxs "abstract", wsPlus, rxs "class", wsPlus, Rx.group 1 wordPlus]

/-- `interface\s+(\w+)`. -/
def interfaceP : Rx :=
  rxCat [rxs "interface", wsPlus, Rx.group 1 wordPlus]

/-- `(\w+)\s*(--|>|\.\.>|\*--|o--|<\|--)\s*(\w+)(?:\s*:\s*(.+))?`.  Note the
alternation in the source really is `--` or `>` or `..>` or `*--` or `o--`
or `<|--`: the comment's `--|>` arrow can never be produced as group 2. -/
def classRelP : Rx :=
  rxCat [Rx.group 1 wordPlus, wsStar,
    Rx.group 2 (rxAlts [rxs "--", rxs ">", rxs "..>", rxs "*--", rxs "o--", rxs "<|--"]),
    wsStar, Rx.group 3 wordPlus,
    rxOpt (rxCat [wsStar, rxc ':', wsStar, Rx.group 4 dotPlus])]

/-- `[+\-#~]`. -/
def visibilityCls : Rx := oneOf ['+', '-', '#', '~']

/-- `^([+\-#~])?(\{static\}\s*)?(\w+)(?:\s*:\s*(\w+))?(?:\s*=\s*(.+))?`. -/
def attributeP : Rx :=
  rxCat [rxOpt (Rx.group 1 visibilityCls),
    rxOpt (Rx.group 2 (rxCat [rxs "{static}", wsStar])),
    Rx.group 3 wordPlus,
    rxOpt (rxCat [wsStar, rxc ':', wsStar, Rx.group 4 wordPlus]),
    rxOpt (rxCat [wsStar, rxc '=', wsStar, Rx.group 5 dotPlus])]

/-- `^([+\-#~])?(\{static\}\s*)?(\{abstract\}\s*)?(\w+)\(([^)]*)\)(?:\s*:\s*(\w+))?`. -/
def methodP : Rx :=
  rxCat [rxOpt (Rx.group 1 visibilityCls),
    rxOpt (Rx.group 2 (rxCat [rxs "{static}", wsStar])),
    rxOpt (Rx.group 3 (rxCat [rxs "{abstract}", wsStar])),
    Rx.group 4 wordPlus, rxc '(',
    Rx.group 5 (Rx.star (noneOf [ClsItem.single ')'])), rxc ')',
    rxOpt (rxCat [wsStar, rxc ':', wsStar, Rx.group 6 wordPlus])]

/-- `self.visibility_map.get(ch, Visibility.PUBLIC)`; a `None` group also
yields the default. -/
def visibilityOf (g : Option (List Char)) : Visibility :=
  match g with
  | some ['+'] => Visibility.PUBLIC
  | some ['-'] => Visibility.PRIVATE
  | some ['#'] => Visibility.PROTECTED
  | some ['~'] => Visibility.PACKAGE
  | _ => Visibility.PUBLIC

/-- `ClassDiagramParser._parse_attribute` (the line is stripped again by the
caller's `line.strip()` inside `re.match`). -/
def parse_attribute (line : List Char) : Option ClassAttribute :=
  match rxMatchStart false attributeP 5 (pyStrip line) with
  | none => none
  | some caps =>
    some { name := (getCap caps 3).getD []
           type := getCap caps 4
           visibility := visibilityOf (getCap caps 1)
           is_static := (getCap caps 2).isSome
           default_value := getCap caps 5 }

/-- `str.split(',')`. -/
def splitCommas (s : List Char) : List (List Char) := s.splitOn ','

/-- `ClassDiagramParser._parse_method`. -/
def parse_method (line : List Char) : Option ClassMethod :=
  match rxMatchStart false methodP 6 (pyStrip line) with
  | none => none
  | some caps =>
    let params_str := (getCap caps 5).getD []
    let parameters :=
      if (pyStrip params_str).isEmpty then []
      else (splitCommas params_str).filterMap (fun p =>
        let p2 := pyStrip p
        if p2.isEmpty then none else some p2)
    some { name := (getCap caps 4).getD []
           parameters := parameters
           return_type := getCap caps 6
           visibility := visibilityOf (getCap caps 1)
           is_static := (getCap caps 2).isSome
           is_abstract := (getCap caps 3).isSome }

/-- `ClassDiagramParser._parse_class_body`: a stripped non-blank line with a
parenthesis pair is a method, otherwise an attribute. -/
def parse_class_body (body : List Char) :
    List ClassAttribute × List ClassMethod :=
  (pySplitLines body).foldl (fun st line =>
    let l := pyStrip line
    if l.isEmpty then st
    else if l.contains '(' ∧ l.contains ')' then
      match parse_method l with
      | some m => (st.1, st.2 ++ [m])
      | none => st
    else
      match parse_attribute l with
      | some a => (st.1 ++ [a], st.2)
      | none => st) ([], [])

/-- `ClassDiagramParser._looks_like_class_name`: non-empty, first character
upper case, alphanumeric, not `str.isupper()` (which requires a cased
character and no lower-case one). -/
def looks_like_class_name (name : List Char) : Bool :=
  match name with
  | [] => false
  | c :: _ =>
    c.isUpper ∧ (¬ name.isEmpty ∧ name.all (fun d => d.isAlpha ∨ d.isDigit)) ∧
    ¬ (name.any Char.isAlpha ∧ name.all (fun d => ¬ d.isAlpha ∨ d.isUpper))

/-- `ClassDiagramParser._extract_classes_from_relationships`. -/
def extract_classes_from_relationships (code : List Char) : List (List Char) :=
  dedupKeepFirst
    ((finditer true classRelP 4 code).flatMap fun caps =>
      let source := (getCap caps 1).getD []
      let target := (getCap caps 3).getD []
      (if ¬ source.isEmpty ∧ looks_like_class_name source then [source] else []) ++
      (if ¬ target.isEmpty ∧ looks_like_class_name target then [target] else []))

/-- `ClassDiagramParser._extract_classes`: classes with bodies first, then
simple declarations (plain, abstract, interface), then bare names synthesized
from relationship endpoints. -/
def extract_classes (code : List Char) : List UMLClass :=
  let withBodies := (finditer true classBodyP 2 code).foldl
    (fun (cs : List UMLClass) caps =>
      let class_name := (getCap caps 1).getD []
      if (cs.map UMLClass.name).contains class_name then cs
      else
        let body := (getCap caps 2).getD []
        let am := parse_class_body body
        cs ++ [{ name := class_name, attributes := am.1, methods := am.2
                 is_abstract := pyContains (pyLower code) "abstract".data ∧
                   pyContains code class_name }]) []
  let withSimple := [simpleClassP, abstractClassP, interfaceP].foldl
    (fun (cs : List UMLClass) p =>
      (finditer true p 1 code).foldl (fun cs caps =>
        let class_name := (getCap caps 1).getD []
        if (cs.map UMLClass.name).contains class_name then cs
        else
          let whole := (getCap caps 0).getD []
          cs ++ [{ name := class_name
                   is_abstract := pyContains (pyLower whole) "abstract".data
                   stereotype :=
                     if pyContains (pyLower whole) "interface".data then
                       some "interface" else none }]) cs) withBodies
  (extract_classes_from_relationships code).foldl
    (fun cs n =>
      if (cs.map UMLClass.name).contains n then cs else cs ++ [{ name := n }])
    withSimple

/-- `self.relationship_map.get(arrow, ASSOCIATION)`, written out with the
source's keys (the `--|>` key is dead: group 2 can never equal it). -/
def classArrowType (arrow : List Char) : CRelType :=
  if arrow = "--|>".data then CRelType.INHERITANCE
  else if arrow = "*--".data then CRelType.COMPOSITION
  else if arrow = "o--".data then CRelType.AGGREGATION
  else if arrow = "--".data then CRelType.ASSOCIATION
  else if arrow = "..>".data then CRelType.DEPENDENCY
  else if arrow = "..|>".data then CRelType.REALIZATION
  else if arrow = "<|--".data then CRelType.INHERITANCE
  else CRelType.ASSOCIATION

/-- `ClassDiagramParser._extract_relationships`: reverse `<|--` endpoints,
keep only relationships between extracted class names. -/
def extract_relationships_cls (code : List Char)
    (classNames : List (List Char)) : List ClassRelationship :=
  (finditer true classRelP 4 code).filterMap fun caps =>
    let source0 := (getCap caps 1).getD []
    let arrow := (getCap caps 2).getD []
    let target0 := (getCap caps 3).getD []
    let label : Option (List Char) :=
      if truthyCap (getCap caps 4) then getCap caps 4 else none
    let st := if arrow = "<|--".data then (target0, source0) else (source0, target0)
    if classNames.contains st.1 ∧ classNames.contains st.2 then
      some { source := st.1, target := st.2
             relationship_type := classArrowType arrow, label := label }
    else none

/-- `ClassDiagramParser.parse_diagram`. -/
def parse_diagram_cls (code : List Char) : ClassDiagram :=
  let cleaned := cleanClassCode code
  let classes := extract_classes cleaned
  { classes := classes
    relationships := extract_relationships_cls cleaned (classes.map UMLClass.name) }

/-! ## Sequence diagram model (sequence_diagram_models.py)

The sequence parser is not implemented; Phase 2 creates an empty
`SequenceDiagram` via `DiagramFactory.create_diagram`. Only the fields read
by the metrics engine are modelled. -/

/-- `Participant` (sequence_diagram_models.py); only `name` is read. -/
structure Participant where
  name : List Char
deriving DecidableEq, Repr

/-- `Message` (sequence_diagram_models.py); only the fields used by
`MetricsEngine._message_key` are modelled. -/
structure SeqMessage where
  source : List Char
  target : List Char
  label : List Char
deriving DecidableEq, Repr

/-- `SequenceDiagram` (sequence_diagram_models.py); both list fields default
to empty, which is what `DiagramFactory.create_diagram(SEQUENCE)` produces. -/
structure SequenceDiagram where
  participants : List Participant := []
  messages : List SeqMessage := []
deriving DecidableEq, Repr

/-- `DiagramUnion` (diagram_factory.py): the union of the three parsed
diagram models. -/
inductive DiagramUnion where
  | uc (d : UMLDiagram)
  | cls (d : ClassDiagram)
  | seq (d : SequenceDiagram)
deriving DecidableEq, Repr

/-! ## Whole-diagram metrics (`MetricsEngine.calculate_diagram_metrics`) -/

/-- `MetricsEngine._relationship_key`:
`f"{rel.source}->{rel.target}:{rel.relationship_type}"`. -/
def relationship_key (r : URelationship) : List Char :=
  r.source ++ "->".data ++ r.target ++ ":".data ++ r.relationship_type.data

/-- The `.value` string of each `RelationshipType` enum member. -/
def crelValue : CRelType → String
  | CRelType.INHERITANCE => "inheritance"
  | CRelType.COMPOSITION => "composition"
  | CRelType.AGGREGATION => "aggregation"
  | CRelType.ASSOCIATION => "association"
  | CRelType.DEPENDENCY => "dependency"
  | CRelType.REALIZATION => "realization"

/-- `MetricsEngine._class_relationship_key`:
`f"{rel.source}->{rel.target}:{rel.relationship_type.value}"`. -/
def class_relationship_key (r : ClassRelationship) : List Char :=
  r.source ++ "->".data ++ r.target ++ ":".data ++ (crelValue r.relationship_type).data

/-- `MetricsEngine._message_key`: `f"{msg.source}->{msg.target}:{msg.label}"`. -/
def message_key (m : SeqMessage) : List Char :=
  m.source ++ "->".data ++ m.target ++ ":".data ++ m.label

/-- `DiagramMetrics` (metrics_engine.py); the `Dict[str, ComponentMetrics]`
is kept in insertion order. -/
structure DiagramMetrics where
  diagram_type : DiagramType
  component_metrics : List (String × ComponentMetrics)
  overall_metrics : ComponentMetrics
  similarity_score : ℚ
  total_expected : ℤ
  total_actual : ℤ
  total_matched : ℤ
deriving DecidableEq, Repr

/-- `MetricsEngine._calculate_similarity_score`: every component has weight
1.0, so the score is the plain average of the F1 scores (0.0 for an empty
dict). -/
def calculate_similarity_score (cm : List (String × ComponentMetrics)) : ℚ :=
  if cm = [] then 0
  else ((cm.map (fun p => p.2.f1_score)).sum) / (cm.length : ℚ)

/-- `MetricsEngine._calculate_use_case_metrics`; the Python set
comprehensions over component names are modelled as order-preserving
deduplication. -/
def calculate_use_case_metrics (th : ℚ) (expected actual : UMLDiagram) :
    DiagramMetrics :=
  let ea := dedupKeepFirst (expected.actors.map (·.name))
  let aa := dedupKeepFirst (actual.actors.map (·.name))
  let am := calculate_component_metrics th ea aa
  let eu := dedupKeepFirst (expected.use_cases.map (·.name))
  let au := dedupKeepFirst (actual.use_cases.map (·.name))
  let um := calculate_component_metrics th eu au
  let er := dedupKeepFirst (expected.relationships.map relationship_key)
  let ar := dedupKeepFirst (actual.relationships.map relationship_key)
  let rm := calculate_component_metrics th er ar
  let cm := [("actor", am), ("use_case", um), ("relationship", rm)]
  { diagram_type := DiagramType.USE_CASE
    component_metrics := cm
    overall_metrics := aggregate_metrics [am, um, rm]
    similarity_score := calculate_similarity_score cm
    total_expected := (ea.length : ℤ) + eu.length + er.length
    total_actual := (aa.length : ℤ) + au.length + ar.length
    total_matched := am.true_positives + um.true_positives + rm.true_positives }

/-- The `f"{cls.name}.{attr.name}"` attribute keys of a class diagram. -/
def classAttrKeys (d : ClassDiagram) : List (List Char) :=
  (d.classes.map (fun c => c.attributes.map
    (fun a => c.name ++ ".".data ++ a.name))).flatten

/-- The `f"{cls.name}.{method.name}"` method keys of a class diagram. -/
def classMethodKeys (d : ClassDiagram) : List (List Char) :=
  (d.classes.map (fun c => c.methods.map
    (fun m => c.name ++ ".".data ++ m.name))).flatten

/-- `MetricsEngine._calculate_class_metrics`. -/
def calculate_class_metrics (th : ℚ) (expected actual : ClassDiagram) :
    DiagramMetrics :=
  let ec := dedupKeepFirst (expected.classes.map (·.name))
  let ac := dedupKeepFirst (actual.classes.map (·.name))
  let cmets := calculate_component_metrics th ec ac
  let eattr := dedupKeepFirst (classAttrKeys expected)
  let aattr := dedupKeepFirst (classAttrKeys actual)
  let amets := calculate_component_metrics th eattr aattr
  let emeth := dedupKeepFirst (classMethodKeys expected)
  let ameth := dedupKeepFirst (classMethodKeys actual)
  let mmets := calculate_component_metrics th emeth ameth
  let er := dedupKeepFirst (expected.relationships.map class_relationship_key)
  let ar := dedupKeepFirst (actual.relationships.map class_relationship_key)
  let rmets := calculate_component_metrics th er ar
  let cm := [("class", cmets), ("attribute", amets), ("method", mmets),
             ("relationship", rmets)]
  { diagram_type := DiagramType.CLASS
    component_metrics := cm
    overall_metrics := aggregate_metrics [cmets, amets, mmets, rmets]
    similarity_score := calculate_similarity_score cm
    total_expected := (ec.length : ℤ) + eattr.length + emeth.length + er.length
    total_actual := (ac.length : ℤ) + aattr.length + ameth.length + ar.length
    total_matched := cmets.true_positives + amets.true_positives +
      mmets.true_positives + rmets.true_positives }

/-- `MetricsEngine._calculate_sequence_metrics`. -/
def calculate_sequence_metrics (th : ℚ) (expected actual : SequenceDiagram) :
    DiagramMetrics :=
  let ep := dedupKeepFirst (expected.participants.map (·.name))
  let ap := dedupKeepFirst (actual.participants.map (·.name))
  let pm := calculate_component_metrics th ep ap
  let em := dedupKeepFirst (expected.messages.map message_key)
  let am := dedupKeepFirst (actual.messages.map message_key)
  let mm := calculate_component_metrics th em am
  let cm := [("participant", pm), ("message", mm)]
  { diagram_type := DiagramType.SEQUENCE
    component_metrics := cm
    overall_metrics := aggregate_metrics [pm, mm]
    similarity_score := calculate_similarity_score cm
    total_expected := (ep.length : ℤ) + em.length
    total_actual := (ap.length : ℤ) + am.length
    total_matched := pm.true_positives + mm.true_positives }

/-- `MetricsEngine.calculate_diagram_metrics`: dispatch on the diagram type;
passing a diagram that does not match the declared type makes the Python
helper raise (`AttributeError` on a missing field), modelled as an error. -/
def calculate_diagram_metrics (th : ℚ) :
    DiagramUnion → DiagramUnion → DiagramType → Except String DiagramMetrics
  | DiagramUnion.uc e, DiagramUnion.uc a, DiagramType.USE_CASE =>
    Except.ok (calculate_use_case_metrics th e a)
  | DiagramUnion.cls e, DiagramUnion.cls a, DiagramType.CLASS =>
    Except.ok (calculate_class_metrics th e a)
  | DiagramUnion.seq e, DiagramUnion.seq a, DiagramType.SEQUENCE =>
    Except.ok (calculate_sequence_metrics th e a)
  | _, _, _ => Except.error "AttributeError: diagram does not match diagram_type"

/-- The `.value` string of each `DiagramType` enum member. -/
def dtValue : DiagramType → String
  | DiagramType.USE_CASE => "use_case"
  | DiagramType.CLASS => "class"
  | DiagramType.SEQUENCE => "sequence"

/-- `PhaseTwoExtractor._serialize_metrics`: field-for-field copy, with the
enum replaced by its `.value` string. -/
def serializeMetrics (m : DiagramMetrics) : SerializedMetrics :=
  { diagram_type := dtValue m.diagram_type
    component_metrics := m.component_metrics
    overall_metrics := m.overall_metrics
    similarity_score := m.similarity_score
    total_expected := m.total_expected
    total_actual := m.total_actual
    total_matched := m.total_matched }

/-! ## Phase 2 extractor (`PhaseTwoExtractor`) -/

/-- A `diagram_type` argument as the dynamically-typed Python code can
receive it: a genuine `DiagramType` member, or some other value forced by a
caller (the "unsupported diagram type" case). -/
inductive DiagramTypeIn where
  | valid (d : DiagramType)
  | invalid (s : String)
deriving DecidableEq, Repr

/-- `ExtractionResult` (phase_two_extractor.py). The serialized diagram
dicts are kept as the diagrams themselves (`none` models the empty dict
`{}` of the failure path) and wall-clock `processing_time` is omitted.
Pydantic validates `diagram_type` against the enum, so only genuine members
can appear in a constructed result. -/
structure ExtractionResult where
  success : Bool
  diagram_type : DiagramType
  teacher_diagram : Option DiagramUnion
  student_diagram : Option DiagramUnion
  metrics : Option SerializedMetrics
  errors : List String
  warnings : List String
deriving DecidableEq, Repr

/-- `PhaseTwoExtractor._extract_diagram_components`: parse according to the
diagram type; the sequence parser is a stub producing an empty diagram; any
other type raises `ValueError`. -/
def extract_diagram_components (code : List Char) :
    DiagramTypeIn → Except String DiagramUnion
  | DiagramTypeIn.valid DiagramType.USE_CASE =>
    Except.ok (DiagramUnion.uc (parse_diagram_uc code))
  | DiagramTypeIn.valid DiagramType.CLASS =>
    Except.ok (DiagramUnion.cls (parse_diagram_cls code))
  | DiagramTypeIn.valid DiagramType.SEQUENCE =>
    Except.ok (DiagramUnion.seq {})
  | DiagramTypeIn.invalid s =>
    Except.error ("Unsupported diagram type: " ++ s)

/-- `PhaseTwoExtractor.extract_and_calculate_metrics`: the `try` body
parses both diagrams and computes metrics; any exception is caught and
turned into a `success=False` result carrying the exception text - but the
failure result itself revalidates `diagram_type`, so a forced non-member
type makes even the `except` branch raise (pydantic `ValidationError`).
`th` is the configured similarity threshold (default 0.85). -/
def extract_and_calculate_metrics (th : ℚ)
    (normalized_student teacher : List Char) (dt : DiagramTypeIn) :
    Except String ExtractionResult :=
  let body : Except String ExtractionResult :=
    match extract_diagram_components teacher dt with
    | Except.error e => Except.error e
    | Except.ok td =>
      match extract_diagram_components normalized_student dt with
      | Except.error e => Except.error e
      | Except.ok sd =>
        match dt with
        | DiagramTypeIn.invalid s => Except.error ("Unsupported diagram type: " ++ s)
        | DiagramTypeIn.valid v =>
          match calculate_diagram_metrics th td sd v with
          | Except.error e => Except.error e
          | Except.ok m =>
            Except.ok { success := true, diagram_type := v
                        teacher_diagram := some td, student_diagram := some sd
                        metrics := some (serializeMetrics m)
                        errors := [], warnings := [] }
  match body with
  | Except.ok r => Except.ok r
  | Except.error e =>
    match dt with
    | DiagramTypeIn.valid v =>
      Except.ok { success := false, diagram_type := v
                  teacher_diagram := none, student_diagram := none
                  metrics := none, errors := [e], warnings := [] }
    | DiagramTypeIn.invalid s =>
      Except.error ("ValidationError: diagram_type " ++ s)

/-- `PhaseTwoExtractor.calculate_final_score` with the default weights (the
pipeline's Phase-3 fallback passes none): weighted precision/recall/F1 on a
10-point scale with a 20% penalty below similarity 0.5, rounded to 2
digits. `metrics.get` on the failure-path empty dict (`none`) yields the
defaults 0, 0, 0 and similarity 1.0. -/
def phase_two_calculate_final_score (metrics : Option SerializedMetrics) : ℚ :=
  let p := match metrics with | some m => m.overall_metrics.precision | none => 0
  let r := match metrics with | some m => m.overall_metrics.«recall» | none => 0
  let f1 := match metrics with | some m => m.overall_metrics.f1_score | none => 0
  let sim := match metrics with | some m => m.similarity_score | none => 1
  let final := (p * (3/10) + r * (3/10) + f1 * (4/10)) * 10
  pyRound2 (if sim < 1/2 then final * (8/10) else final)

/-! ## Phase 1 orchestrator (`NormalizationOrchestrator`) -/

/-- A value appended to the orchestrator's local `warnings` list: the retry
loop and the final failure path append plain strings, the success path
appends `ValidationIssue`s. -/
inductive WarnVal where
  | str (s : String)
  | issue (i : ValidationIssue)
deriving DecidableEq, Repr

/-- `NormalizationChainResult` (normalization_orchestrator.py); the three
opaque AI step results and wall-clock `processing_time` are omitted. The
`warnings` field is declared `list[ValidationIssue]`. -/
structure NormalizationChainResult where
  success : Bool
  normalized_plantuml : List Char
  original_plantuml : List Char
  diagram_type : DiagramType
  validation_result : ValidationResult
  retries_used : ℕ
  final_confidence : ℚ
  warnings : List ValidationIssue
deriving DecidableEq, Repr

/-- Pydantic validation of the `warnings: list[ValidationIssue]` field:
every element must be a `ValidationIssue`; a plain string is rejected. -/
def allIssues : List WarnVal → Option (List ValidationIssue)
  | [] => some []
  | WarnVal.issue i :: rest =>
    match allIssues rest with
    | some l => some (i :: l)
    | none => none
  | WarnVal.str _ :: _ => none

/-- Construction of a `NormalizationChainResult`: succeeds only if every
warning is a `ValidationIssue`; otherwise pydantic raises
`ValidationError`. -/
def mkNormalizationChainResult (succ : Bool) (normalized original : List Char)
    (dt : DiagramType) (vr : ValidationResult) (retries : ℕ) (conf : ℚ)
    (ws : List WarnVal) : Except String NormalizationChainResult :=
  match allIssues ws with
  | some l =>
    Except.ok { success := succ, normalized_plantuml := normalized
                original_plantuml := original, diagram_type := dt
                validation_result := vr, retries_used := retries
                final_confidence := conf, warnings := l }
  | none =>
    Except.error "ValidationError: warnings items must be ValidationIssue"

/-- `NormalizationOrchestrator._create_empty_validation`. -/
def create_empty_validation (code : List Char) : ValidationResult :=
  { is_valid := false, validated_plantuml := code, issues := []
    syntax_valid := false, logic_preserved := true
    conventions_matched := false, confidence := 0 }

/-- One iteration of the retry loop's `try` block: run the 4-step AI chain
(modelled by the oracle `chain`, indexed by attempt number, whose relevant
output is the step-4 `ValidationResult`) and construct the success result.
A chain exception or a construction `ValidationError` both surface as an
error caught by the loop's `except`. -/
def ncTryAttempt (chain : ℕ → Except String ValidationResult)
    (student : List Char) (dt : DiagramType) (attempt retries_used : ℕ)
    (warnings : List WarnVal) : Except String NormalizationChainResult :=
  match chain attempt with
  | Except.error e => Except.error e
  | Except.ok vr =>
    mkNormalizationChainResult true vr.validated_plantuml student dt vr
      retries_used vr.confidence (warnings ++ vr.issues.map WarnVal.issue)

/-- The retry loop of `normalize_conventions`: `remaining` counts the
attempts still allowed after the current one. Each failure increments
`retries_used` and, if retries remain, appends the string
`"Retry {n}: {e}"` to `warnings`; after the last attempt the exception
reaches the outer `except`, which constructs the failure result with the
string `"Normalization failed: {e}"` appended. -/
def ncAttempts (chain : ℕ → Except String ValidationResult)
    (student : List Char) (dt : DiagramType) :
    ℕ → ℕ → ℕ → List WarnVal → Except String NormalizationChainResult
  | 0, attempt, retries_used, warnings =>
    match ncTryAttempt chain student dt attempt retries_used warnings with
    | Except.ok r => Except.ok r
    | Except.error e =>
      mkNormalizationChainResult false student student dt
        (create_empty_validation student) (retries_used + 1) 0
        (warnings ++ [WarnVal.str ("Normalization failed: " ++ e)])
  | remaining + 1, attempt, retries_used, warnings =>
    match ncTryAttempt chain student dt attempt retries_used warnings with
    | Except.ok r => Except.ok r
    | Except.error e =>
      ncAttempts chain student dt remaining (attempt + 1) (retries_used + 1)
        (warnings ++ [WarnVal.str ("Retry " ++ toString (attempt + 1) ++ ": " ++ e)])

/-- `NormalizationOrchestrator.normalize_conventions`: detect the type from
the TEACHER text when not given, then run up to `max_retries + 1` attempts.
`teacher` and `problem` feed the AI chain, which is the oracle here. -/
def normalize_conventions (chain : ℕ → Except String ValidationResult)
    (student teacher _problem : List Char) (dtOpt : Option DiagramType)
    (max_retries : ℕ) : Except String NormalizationChainResult :=
  let dt := match dtOpt with
    | some d => d
    | none => detect_diagram_type_from_plantuml (String.mk teacher)
  ncAttempts chain student dt max_retries 0 0 []

/-! ## The 3-phase pipeline (`ThreePhasePipeline.process_diagram`) -/

/-- Which phases ran, in order (the trace of a `process_diagram` run). -/
inductive PhaseTag where
  | phase1
  | phase2
  | phase3
deriving DecidableEq, Repr

/-- The fields of the Phase-3 orchestrator result read by the pipeline. -/
structure PhaseThreeResult where
  success : Bool
  final_score : ℚ
  grade_letter : String
  summary : String
  warnings : List String
deriving DecidableEq, Repr

/-- `PipelineResult` (three_phase_pipeline.py); the serialized phase dicts,
timings and confidence are omitted. -/
structure PipelineResult where
  success : Bool
  diagram_type : DiagramType
  final_score : ℚ
  grade_letter : String
  feedback_summary : String
  warnings : List String
  errors : List String
deriving DecidableEq, Repr

/-- The failure `PipelineResult` built by `process_diagram`'s `except`
handler: score 0.0, grade 'F', the exception text appended to the errors
accumulated so far. -/
def pipelineFailure (dt : DiagramType) (warnings errors : List String)
    (e : String) : PipelineResult :=
  { success := false, diagram_type := dt, final_score := 0
    grade_letter := "F"
    feedback_summary := "Pipeline processing failed. Please check your diagram and try again."
    warnings := warnings, errors := errors ++ [e] }

/-- The diagram type used by the pipeline: the given one, else auto-detected
from the STUDENT text. -/
def pipelineDt : List Char → Option DiagramType → DiagramType
  | _, some d => d
  | student, none => detect_diagram_type_from_plantuml (String.mk student)

/-- `ThreePhasePipeline.process_diagram`, with the three phase services
injected as in the source (each may raise, modelled by `Except`). Returns
the result together with the trace of phases that were invoked. Notable
source behaviour modelled faithfully: a `success=False` Phase-1 result hits
`phase_one_result.errors` (line 120), a field `NormalizationChainResult`
does not have, so that branch raises `AttributeError` into the `except`
handler; a `success=False` Phase-2 result raises after extending the
errors; a `success=False` Phase-3 result falls back to
`PhaseTwoExtractor.calculate_final_score` but still reports overall
success. -/
def process_diagram
    (phase1 : List Char → List Char → List Char → DiagramType →
      Except String NormalizationChainResult)
    (phase2 : List Char → List Char → DiagramType → Except String ExtractionResult)
    (phase3 : Option DiagramUnion → Option DiagramUnion →
      Option SerializedMetrics → List Char → DiagramType →
      Except String PhaseThreeResult)
    (student teacher problem : List Char) (dtOpt : Option DiagramType) :
    PipelineResult × List PhaseTag :=
  let dt := pipelineDt student dtOpt
  match phase1 student teacher problem dt with
  | Except.error e => (pipelineFailure dt [] [] e, [PhaseTag.phase1])
  | Except.ok p1 =>
    if p1.success = false then
      (pipelineFailure dt [] []
        "AttributeError: NormalizationChainResult object has no attribute errors",
       [PhaseTag.phase1])
    else
      let warnings1 := p1.warnings.map (·.description)
      match phase2 p1.normalized_plantuml teacher dt with
      | Except.error e =>
        (pipelineFailure dt warnings1 [] e, [PhaseTag.phase1, PhaseTag.phase2])
      | Except.ok p2 =>
        if p2.success = false then
          (pipelineFailure dt (warnings1 ++ p2.warnings) p2.errors
            "Phase 2 extraction failed - cannot proceed to Phase 3",
           [PhaseTag.phase1, PhaseTag.phase2])
        else
          let warnings2 := warnings1 ++ p2.warnings
          match phase3 p2.teacher_diagram p2.student_diagram p2.metrics problem dt with
          | Except.error e =>
            (pipelineFailure dt warnings2 [] e,
             [PhaseTag.phase1, PhaseTag.phase2, PhaseTag.phase3])
          | Except.ok p3 =>
            if p3.success = false then
              let fs := phase_two_calculate_final_score p2.metrics
              ({ success := true, diagram_type := dt, final_score := fs
                 grade_letter := pipelineLetterGrade fs
                 feedback_summary :=
                   "Automated feedback generation failed. Please review manually."
                 warnings := warnings2 ++ p3.warnings
                 errors := ["Phase 3 feedback generation failed"] },
               [PhaseTag.phase1, PhaseTag.phase2, PhaseTag.phase3])
            else
              ({ success := true, diagram_type := dt, final_score := p3.final_score
                 grade_letter := p3.grade_letter, feedback_summary := p3.summary
                 warnings := warnings2 ++ p3.warnings, errors := [] },
               [PhaseTag.phase1, PhaseTag.phase2, PhaseTag.phase3])

/-! ## Concrete phase services for pipeline runs -/

/-- A Phase-1 oracle that succeeds immediately, returning the student code
unchanged with a clean validation. -/
def oraclePhase1 (s _t _p : List Char) (dt : DiagramType) :
    Except String NormalizationChainResult :=
  Except.ok { success := true, normalized_plantuml := s, original_plantuml := s
              diagram_type := dt
              validation_result :=
                { is_valid := true, validated_plantuml := s, issues := []
                  syntax_valid := true, logic_preserved := true
                  conventions_matched := true, confidence := 9/10 }
              retries_used := 0, final_confidence := 9/10, warnings := [] }

/-- Phase 2 as actually wired in the pipeline: the real extractor at the
default similarity threshold 0.85. -/
def realPhase2 (s t : List Char) (d : DiagramType) : Except String ExtractionResult :=
  extract_and_calculate_metrics (17/20) s t (DiagramTypeIn.valid d)

/-- A Phase-3 oracle that succeeds with a fixed score. -/
def oraclePhase3 (_td _sd : Option DiagramUnion) (_m : Option SerializedMetrics)
    (_p : List Char) (_dt : DiagramType) : Except String PhaseThreeResult :=
  Except.ok { success := true, final_score := 10, grade_letter := "A"
              summary := "ok", warnings := [] }

/-- The all-attempts-fail chain oracle for the retry-exhaustion run. -/
def c6chain (_i : ℕ) : Except String ValidationResult :=
  Except.error "LLM failure"

/-- A `success=False` Phase-2 result as the failure branch constructs it. -/
def failedExtraction : ExtractionResult :=
  { success := false, diagram_type := DiagramType.USE_CASE
    teacher_diagram := none, student_diagram := none, metrics := none
    errors := ["boom"], warnings := [] }

/-- Whether an `Except` computation succeeded. -/
def exceptIsOk {ε α : Type _} : Except ε α → Bool
  | Except.ok _ => true
  | Except.error _ => false

/-- The pipeline run in which Phase 1 exhausts its retries (the chain fails
on every attempt, `max_retries = 0`). -/
def c6run : PipelineResult × List PhaseTag :=
  process_diagram (fun s t p d => normalize_conventions c6chain s t p (some d) 0)
    realPhase2 oraclePhase3 [] [] [] (some DiagramType.USE_CASE)

/-- A Phase-2 service returning the `success=False` failure result. -/
def c7phase2fail (_s _t : List Char) (_d : DiagramType) :
    Except String ExtractionResult :=
  Except.ok failedExtraction

/-- A Phase-2 service that raises. -/
def c7phase2err (_s _t : List Char) (_d : DiagramType) :
    Except String ExtractionResult :=
  Except.error "network down"

/-- The pipeline run in which Phase 2 reports failure. -/
def c7runA : PipelineResult × List PhaseTag :=
  process_diagram oraclePhase1 c7phase2fail oraclePhase3 [] [] []
    (some DiagramType.USE_CASE)

/-- The pipeline run in which Phase 2 raises. -/
def c7runB : PipelineResult × List PhaseTag :=
  process_diagram oraclePhase1 c7phase2err oraclePhase3 [] [] []
    (some DiagramType.USE_CASE)

/-- The pipeline run on entirely blank inputs, with succeeding AI oracles
and the real Phase-2 extractor. -/
def c5run : PipelineResult × List PhaseTag :=
  process_diagram oraclePhase1 realPhase2 oraclePhase3 [] [] [] none

/-! ## Rounding lemmas -/

theorem roundHalfEven_ge_floor (q : ℚ) : ⌊q⌋ ≤ roundHalfEven q := by
  unfold roundHalfEven
  split_ifs <;> omega

theorem roundHalfEven_nonneg (q : ℚ) (h : 0 ≤ q) : 0 ≤ roundHalfEven q := by
  have h1 : (0 : ℤ) ≤ ⌊q⌋ := Int.floor_nonneg.mpr h
  have h2 := roundHalfEven_ge_floor q
  omega

theorem roundHalfEven_le_of_le (q : ℚ) (n : ℤ) (h : q ≤ (n : ℚ)) :
    roundHalfEven q ≤ n := by
  have hf : ⌊q⌋ ≤ n := by
    have := Int.floor_le_floor h
    simpa using this
  unfold roundHalfEven
  split_ifs with h1 h2 h3
  · exact hf
  · rcases lt_or_eq_of_le hf with hlt | heq
    · omega
    · exfalso
      have hq : q - (⌊q⌋ : ℚ) ≤ 0 := by
        have : ((⌊q⌋ : ℤ) : ℚ) = (n : ℚ) := by exact_mod_cast heq
        linarith
      linarith
  · exact hf
  · rcases lt_or_eq_of_le hf with hlt | heq
    · omega
    · exfalso
      have hq : q - (⌊q⌋ : ℚ) ≤ 0 := by
        have : ((⌊q⌋ : ℤ) : ℚ) = (n : ℚ) := by exact_mod_cast heq
        linarith
      have hge : ¬ (q - (⌊q⌋ : ℚ) < 1/2) := h1
      push_neg at hge
      linarith

theorem pyRound2_nonneg (q : ℚ) (h : 0 ≤ q) : 0 ≤ pyRound2 q := by
  unfold pyRound2
  have h1 : (0 : ℚ) ≤ q * 100 := by linarith
  have h2 := roundHalfEven_nonneg _ h1
  have h3 : (0 : ℚ) ≤ ((roundHalfEven (q * 100) : ℤ) : ℚ) := by exact_mod_cast h2
  linarith

theorem pyRound2_le_ten (q : ℚ) (h : q ≤ 10) : pyRound2 q ≤ 10 := by
  unfold pyRound2
  have h1 : q * 100 ≤ ((1000 : ℤ) : ℚ) := by push_cast; linarith
  have h2 := roundHalfEven_le_of_le _ 1000 h1
  have h3 : ((roundHalfEven (q * 100) : ℤ) : ℚ) ≤ 1000 := by exact_mod_cast h2
  linarith

theorem scoreCalcLetterGrade_mono (s t : ℚ) (h : s ≤ t) :
    gradeRank (scoreCalcLetterGrade s) ≤ gradeRank (scoreCalcLetterGrade t) := by
  simp only [scoreCalcLetterGrade, grade_thresholds, lookupGrade]
  split_ifs <;> first | decide | linarith

/-- C10: the two letter-grade implementations agree on every score. -/
theorem letter_grade_implementations_agree (s : ℚ) :
    scoreCalcLetterGrade s = pipelineLetterGrade s := by
  simp only [scoreCalcLetterGrade, grade_thresholds, lookupGrade, pipelineLetterGrade]
  split_ifs <;> rfl

/-- C8: diagram-type detection scores the three fixed keyword sets, returns the
highest-scoring type with ties resolved in the priority order SEQUENCE, CLASS,
USE_CASE, defaults to USE_CASE on all-zero scores (the `specDetectType`
description), and is deterministic: it depends only on the lower-cased text. -/
theorem detect_type_priority_and_deterministic :
    (∀ code : String, detect_diagram_type_from_plantuml code = specDetectType code) ∧
    (∀ s t : String, pyLower s.data = pyLower t.data →
      detect_diagram_type_from_plantuml s = detect_diagram_type_from_plantuml t) := by
  constructor
  · intro code
    simp only [detect_diagram_type_from_plantuml, specDetectType, detectAux]
    split_ifs <;> first | rfl | omega
  · intro s t h
    simp only [detect_diagram_type_from_plantuml, h]

/-- Witness for C8 at concrete inputs: the general theorem applied to the
texts "Actor" and "aCTOR", whose lower-casings coincide. -/
theorem detect_type_priority_witness :
    detect_diagram_type_from_plantuml "Actor" = specDetectType "Actor" ∧
    detect_diagram_type_from_plantuml "Actor" = detect_diagram_type_from_plantuml "aCTOR" :=
  ⟨detect_type_priority_and_deterministic.1 "Actor",
   detect_type_priority_and_deterministic.2 "Actor" "aCTOR" (by decide)⟩

/-- `final_score` is, definitionally, the two-decimal rounding of the clamped
pre-rounding score. -/
theorem final_score_eq_round_clamp (m : SerializedMetrics)
    (ea : ErrorAnalysisResult) (fr : FeedbackGenerationResult)
    (dt : DiagramType) (custom : Option (List (String × ℚ))) :
    (calculate_final_score m ea fr dt custom).final_score
      = pyRound2 (scoreClampedValue m ea fr custom) := rfl

/-- `grade_letter` is, definitionally, the threshold grade of the unrounded
clamped score. -/
theorem grade_letter_eq_clamp_grade (m : SerializedMetrics)
    (ea : ErrorAnalysisResult) (fr : FeedbackGenerationResult)
    (dt : DiagramType) (custom : Option (List (String × ℚ))) :
    (calculate_final_score m ea fr dt custom).grade_letter
      = scoreCalcLetterGrade (scoreClampedValue m ea fr custom) := rfl

theorem c1Cex_clamped_value :
    scoreClampedValue c1CexMetrics c1CexErrors c1CexFeedback none = 8996/1000 := by
  simp [scoreClampedValue, calculateBaseScore, calculatePenalties,
    calculateBonuses, severityPenaltySum, sumVals, dictGet,
    default_weights, c1CexMetrics, c1CexErrors, c1CexFeedback]
  norm_num [min_def, max_def]

theorem c1Cex_final_score :
    (calculate_final_score c1CexMetrics c1CexErrors c1CexFeedback
      DiagramType.USE_CASE none).final_score = 9 := by
  rw [final_score_eq_round_clamp, c1Cex_clamped_value]
  norm_num [pyRound2, roundHalfEven]

/-- C1 counterexample: with every overall ratio 0.8996 the clamped score is
8.996, but the stored `final_score` is `round(8.996, 2) = 9.0` while
`grade_letter` is computed from the unrounded 8.996 and is "B".  So
`final_score` is not the clamp value, and `grade_letter` is not the
threshold grade of `final_score` (which would be "A" at 9.0). -/
theorem final_score_round_grade_counterexample :
    (calculate_final_score c1CexMetrics c1CexErrors c1CexFeedback
        DiagramType.USE_CASE none).final_score ≠
      scoreClampedValue c1CexMetrics c1CexErrors c1CexFeedback none ∧
    (calculate_final_score c1CexMetrics c1CexErrors c1CexFeedback
        DiagramType.USE_CASE none).grade_letter ≠
      scoreCalcLetterGrade
        ((calculate_final_score c1CexMetrics c1CexErrors c1CexFeedback
          DiagramType.USE_CASE none).final_score) := by
  constructor
  · rw [c1Cex_final_score, c1Cex_clamped_value]
    norm_num
  · rw [grade_letter_eq_clamp_grade, c1Cex_clamped_value, c1Cex_final_score]
    norm_num [scoreCalcLetterGrade, grade_thresholds, lookupGrade]
    decide

/-- C1 (amended): `final_score` is the clamp of base − Σpenalties + Σbonuses
to [0, 10] rounded to two decimals — hence still always in [0, 10] — and
`grade_letter` is the fixed-threshold grade of the *unrounded* clamped value;
that threshold grading is a non-decreasing step function of the score. -/
theorem calculate_final_score_spec (m : SerializedMetrics)
    (ea : ErrorAnalysisResult) (fr : FeedbackGenerationResult)
    (dt : DiagramType) (custom : Option (List (String × ℚ))) :
    (calculate_final_score m ea fr dt custom).final_score
        = pyRound2 (scoreClampedValue m ea fr custom) ∧
    0 ≤ (calculate_final_score m ea fr dt custom).final_score ∧
    (calculate_final_score m ea fr dt custom).final_score ≤ 10 ∧
    (calculate_final_score m ea fr dt custom).grade_letter
        = scoreCalcLetterGrade (scoreClampedValue m ea fr custom) ∧
    (∀ s t : ℚ, s ≤ t →
      gradeRank (scoreCalcLetterGrade s) ≤ gradeRank (scoreCalcLetterGrade t)) := by
  have h0 : 0 ≤ scoreClampedValue m ea fr custom := le_max_left 0 _
  have h10 : scoreClampedValue m ea fr custom ≤ 10 := by
    apply max_le
    · norm_num
    · exact min_le_left _ _
  refine ⟨rfl, ?_, ?_, rfl, scoreCalcLetterGrade_mono⟩
  · exact pyRound2_nonneg _ h0
  · exact pyRound2_le_ten _ h10

/-- Witness for C1 at concrete inputs, discharging the monotonicity
hypothesis at the scores 6 and 7. -/
theorem calculate_final_score_spec_witness :
    gradeRank (scoreCalcLetterGrade 6) ≤ gradeRank (scoreCalcLetterGrade 7) :=
  (calculate_final_score_spec c1CexMetrics c1CexErrors c1CexFeedback
    DiagramType.USE_CASE none).2.2.2.2 6 7 (by norm_num)

/-! ## difflib and similarity bounds -/

theorem foldl_betterBlock_prop (P : ℕ × ℕ × ℕ → Prop) :
    ∀ (l : List (ℕ × ℕ × ℕ)) (init : ℕ × ℕ × ℕ),
      P init → (∀ c ∈ l, P c) → P (l.foldl betterBlock init) := by
  intro l
  induction l with
  | nil => intro init h _; exact h
  | cons c cs ih =>
    intro init h hall
    simp only [List.foldl_cons]
    apply ih
    · unfold betterBlock
      split
      · exact hall c (List.mem_cons_self c cs)
      · exact h
    · intro x hx
      exact hall x (List.mem_cons_of_mem c hx)

theorem find_longest_match_window (a b : List Char) (alo ahi blo bhi : ℕ) :
    (find_longest_match a b alo ahi blo bhi).2.2 = 0 ∨
    (alo ≤ (find_longest_match a b alo ahi blo bhi).1 ∧
     (find_longest_match a b alo ahi blo bhi).1 +
       (find_longest_match a b alo ahi blo bhi).2.2 ≤ ahi ∧
     blo ≤ (find_longest_match a b alo ahi blo bhi).2.1 ∧
     (find_longest_match a b alo ahi blo bhi).2.1 +
       (find_longest_match a b alo ahi blo bhi).2.2 ≤ bhi) := by
  unfold find_longest_match
  apply foldl_betterBlock_prop
    (P := fun t => t.2.2 = 0 ∨ (alo ≤ t.1 ∧ t.1 + t.2.2 ≤ ahi ∧ blo ≤ t.2.1 ∧ t.2.1 + t.2.2 ≤ bhi))
  · left; rfl
  · intro c hc
    simp only [List.mem_flatMap, List.mem_map] at hc
    obtain ⟨i, hi, j, hj, rfl⟩ := hc
    rw [List.mem_range'_1] at hi
    rw [List.mem_range'_1] at hj
    right
    dsimp only
    have hka : blockSizeAt a b ahi bhi i j ≤ ahi - i := by
      unfold blockSizeAt
      exact le_trans (min_le_right _ _) (min_le_left _ _)
    have hkb : blockSizeAt a b ahi bhi i j ≤ bhi - j := by
      unfold blockSizeAt
      exact le_trans (min_le_right _ _) (min_le_right _ _)
    refine ⟨hi.1, ?_, hj.1, ?_⟩ <;> omega

theorem matchingBlocksTotal_le (a b : List Char) :
    ∀ (fuel alo ahi blo bhi : ℕ),
      matchingBlocksTotal a b fuel alo ahi blo bhi ≤ ahi - alo ∧
      matchingBlocksTotal a b fuel alo ahi blo bhi ≤ bhi - blo := by
  intro fuel
  induction fuel with
  | zero => intro alo ahi blo bhi; simp [matchingBlocksTotal]
  | succ n ih =>
    intro alo ahi blo bhi
    simp only [matchingBlocksTotal]
    by_cases hk : (find_longest_match a b alo ahi blo bhi).2.2 = 0
    · rw [if_pos hk]; omega
    · rw [if_neg hk]
      rcases find_longest_match_window a b alo ahi blo bhi with h0 | ⟨h1, h2, h3, h4⟩
      · exact absurd h0 hk
      · have ihl := ih alo (find_longest_match a b alo ahi blo bhi).1
          blo (find_longest_match a b alo ahi blo bhi).2.1
        have ihr := ih
          ((find_longest_match a b alo ahi blo bhi).1 +
            (find_longest_match a b alo ahi blo bhi).2.2) ahi
          ((find_longest_match a b alo ahi blo bhi).2.1 +
            (find_longest_match a b alo ahi blo bhi).2.2) bhi
        omega

theorem sequenceMatcherRatio_le_one (a b : List Char) :
    sequenceMatcherRatio a b ≤ 1 := by
  unfold sequenceMatcherRatio
  split_ifs with h
  · exact le_refl 1
  · have hM := matchingBlocksTotal_le a b (a.length + b.length + 1) 0 a.length 0 b.length
    have hpos : (0 : ℚ) < (a.length : ℚ) + (b.length : ℚ) := by
      have : 0 < a.length + b.length := Nat.pos_of_ne_zero h
      exact_mod_cast this
    rw [div_le_one hpos]
    have h1 : matchingBlocksTotal a b (a.length + b.length + 1) 0 a.length 0 b.length ≤ a.length := by
      have := hM.1; omega
    have h2 : matchingBlocksTotal a b (a.length + b.length + 1) 0 a.length 0 b.length ≤ b.length := by
      have := hM.2; omega
    have c1 : (matchingBlocksTotal a b (a.length + b.length + 1) 0 a.length 0 b.length : ℚ) ≤ (a.length : ℚ) := by
      exact_mod_cast h1
    have c2 : (matchingBlocksTotal a b (a.length + b.length + 1) 0 a.length 0 b.length : ℚ) ≤ (b.length : ℚ) := by
      exact_mod_cast h2
    linarith

theorem sequenceMatcherRatio_nonneg (a b : List Char) :
    0 ≤ sequenceMatcherRatio a b := by
  unfold sequenceMatcherRatio
  split_ifs with h
  · norm_num
  · apply div_nonneg
    · positivity
    · positivity

theorem calculate_similarity_le_one (s1 s2 : List Char) :
    calculate_similarity s1 s2 ≤ 1 := by
  unfold calculate_similarity
  split_ifs with h1 h2
  · exact le_refl 1
  · exact min_le_left _ _
  · exact sequenceMatcherRatio_le_one _ _

theorem calculate_similarity_self (s : List Char) :
    calculate_similarity s s = 1 := by
  unfold calculate_similarity
  rw [if_pos rfl]

/-! ## Semantic matching: structure of the greedy matcher -/

theorem findBest_some_spec (th : ℚ) (e : List Char) (used : List (List Char)) :
    ∀ (l : List (List Char)) (best : Option (List Char) × ℚ) (b : List Char),
      (findBest th e used l best).1 = some b →
      best.1 = some b ∨ (b ∈ l ∧ b ∉ used) := by
  intro l
  induction l with
  | nil => intro best b h; exact Or.inl h
  | cons a rest ih =>
    intro best b h
    simp only [findBest] at h
    split_ifs at h with h1 h2
    · rcases ih best b h with hh | ⟨hm, hu⟩
      · exact Or.inl hh
      · exact Or.inr ⟨List.mem_cons_of_mem a hm, hu⟩
    · rcases ih (some a, calculate_similarity e a) b h with hh | ⟨hm, hu⟩
      · have hab : a = b := by simpa using hh
        subst hab
        exact Or.inr ⟨List.mem_cons_self a rest, h1⟩
      · exact Or.inr ⟨List.mem_cons_of_mem a hm, hu⟩
    · rcases ih best b h with hh | ⟨hm, hu⟩
      · exact Or.inl hh
      · exact Or.inr ⟨List.mem_cons_of_mem a hm, hu⟩

theorem smAux_invariant (th : ℚ) (act : List (List Char)) :
    ∀ (es : List (List Char)) (st : List (List Char × List Char) × List (List Char)),
      st.1.length = st.2.length → st.2.Nodup → st.2 ⊆ act →
      ((smAux th act es st).1.length = (smAux th act es st).2.length ∧
       (smAux th act es st).2.Nodup ∧ (smAux th act es st).2 ⊆ act ∧
       (smAux th act es st).1.length ≤ st.1.length + es.length) := by
  intro es
  induction es with
  | nil =>
    intro st h1 h2 h3
    simp only [smAux]
    exact ⟨h1, h2, h3, by omega⟩
  | cons e rest ih =>
    intro st h1 h2 h3
    simp only [smAux]
    cases hb : (findBest th e st.2 act (none, 0)).1 with
    | none =>
      dsimp only
      have := ih st h1 h2 h3
      simp only [List.length_cons]
      exact ⟨this.1, this.2.1, this.2.2.1, by have := this.2.2.2; omega⟩
    | some b =>
      dsimp only
      by_cases hbe : b = []
      · rw [if_pos hbe]
        have := ih st h1 h2 h3
        simp only [List.length_cons]
        exact ⟨this.1, this.2.1, this.2.2.1, by have := this.2.2.2; omega⟩
      · rw [if_neg hbe]
        have hspec := findBest_some_spec th e st.2 act (none, 0) b hb
        rcases hspec with habs | ⟨hmem, hnotu⟩
        · exact absurd habs (by simp)
        · have hlen : (st.1 ++ [(e, b)]).length = (st.2 ++ [b]).length := by
            simp [h1]
          have hnd : (st.2 ++ [b]).Nodup := by
            rw [List.nodup_append]
            exact ⟨h2, List.nodup_singleton b, by
              intro x hx
              simp only [List.mem_singleton]
              intro hxb
              subst hxb
              exact hnotu hx⟩
          have hsub : (st.2 ++ [b]) ⊆ act := by
            intro x hx
            rcases List.mem_append.mp hx with hx1 | hx2
            · exact h3 hx1
            · rw [List.mem_singleton] at hx2
              subst hx2
              exact hmem
          have := ih (st.1 ++ [(e, b)], st.2 ++ [b]) hlen hnd hsub
          simp only [List.length_cons]
          refine ⟨this.1, this.2.1, this.2.2.1, ?_⟩
          have h4 := this.2.2.2
          simp only [List.length_append, List.length_cons, List.length_nil] at h4
          omega

theorem semantic_matching_length_le (th : ℚ) (expected actual : List (List Char)) :
    (semantic_matching th expected actual).length ≤ expected.length ∧
    (semantic_matching th expected actual).length ≤ actual.length := by
  have h := smAux_invariant th actual expected ([], [])
    (by simp) (by simp) (by simp)
  constructor
  · have := h.2.2.2
    simpa [semantic_matching] using this
  · have hsp : List.Subperm (smAux th actual expected ([], [])).2 actual :=
      List.subperm_of_subset h.2.1 h.2.2.1
    have hle := hsp.length_le
    have heq := h.1
    simp only [semantic_matching]
    omega

/-! ## Metrics invariants (C2) -/

theorem deriveMetrics_invariant (tp fp fn : ℤ)
    (htp : 0 ≤ tp) (hfp : 0 ≤ fp) (hfn : 0 ≤ fn) :
    metricsInvariant (deriveMetrics tp fp fn) := by
  have hp : (0 ≤ (if tp + fp > 0 then (tp : ℚ) / ((tp : ℚ) + (fp : ℚ)) else 0)) ∧
      ((if tp + fp > 0 then (tp : ℚ) / ((tp : ℚ) + (fp : ℚ)) else 0) ≤ 1) := by
    split_ifs with h
    · have hd : (0 : ℚ) < (tp : ℚ) + (fp : ℚ) := by exact_mod_cast h
      constructor
      · apply div_nonneg (by exact_mod_cast htp) (le_of_lt hd)
      · rw [div_le_one hd]
        have : tp ≤ tp + fp := by omega
        exact_mod_cast this
    · norm_num
  have hr : (0 ≤ (if tp + fn > 0 then (tp : ℚ) / ((tp : ℚ) + (fn : ℚ)) else 0)) ∧
      ((if tp + fn > 0 then (tp : ℚ) / ((tp : ℚ) + (fn : ℚ)) else 0) ≤ 1) := by
    split_ifs with h
    · have hd : (0 : ℚ) < (tp : ℚ) + (fn : ℚ) := by exact_mod_cast h
      constructor
      · apply div_nonneg (by exact_mod_cast htp) (le_of_lt hd)
      · rw [div_le_one hd]
        have : tp ≤ tp + fn := by omega
        exact_mod_cast this
    · norm_num
  have ha : (0 ≤ (if tp + fp + fn > 0 then
        (tp : ℚ) / ((tp : ℚ) + (fp : ℚ) + (fn : ℚ)) else 0)) ∧
      ((if tp + fp + fn > 0 then
        (tp : ℚ) / ((tp : ℚ) + (fp : ℚ) + (fn : ℚ)) else 0) ≤ 1) := by
    split_ifs with h
    · have hd : (0 : ℚ) < (tp : ℚ) + (fp : ℚ) + (fn : ℚ) := by exact_mod_cast h
      constructor
      · apply div_nonneg (by exact_mod_cast htp) (le_of_lt hd)
      · rw [div_le_one hd]
        have : tp ≤ tp + fp + fn := by omega
        exact_mod_cast this
    · norm_num
  have hf : (0 ≤ (let p := if tp + fp > 0 then (tp : ℚ) / ((tp : ℚ) + (fp : ℚ)) else 0
        let r := if tp + fn > 0 then (tp : ℚ) / ((tp : ℚ) + (fn : ℚ)) else 0
        if p + r > 0 then 2 * (p * r) / (p + r) else 0)) ∧
      ((let p := if tp + fp > 0 then (tp : ℚ) / ((tp : ℚ) + (fp : ℚ)) else 0
        let r := if tp + fn > 0 then (tp : ℚ) / ((tp : ℚ) + (fn : ℚ)) else 0
        if p + r > 0 then 2 * (p * r) / (p + r) else 0) ≤ 1) := by
    dsimp only
    set p := (if tp + fp > 0 then (tp : ℚ) / ((tp : ℚ) + (fp : ℚ)) else 0) with hpdef
    set r := (if tp + fn > 0 then (tp : ℚ) / ((tp : ℚ) + (fn : ℚ)) else 0) with hrdef
    split_ifs with hc
    · constructor
      · exact div_nonneg (by nlinarith [hp.1, hr.1]) (le_of_lt hc)
      · rw [div_le_one hc]
        nlinarith [hp.1, hp.2, hr.1, hr.2]
    · norm_num
  refine ⟨hp, hr, hf, ha, ?_, ?_, ?_, ?_⟩
  · intro h0
    simp only [deriveMetrics] at h0 ⊢
    rw [if_neg (by omega)]
  · intro h0
    simp only [deriveMetrics] at h0 ⊢
    rw [if_neg (by omega)]
  · intro h0
    simp only [deriveMetrics] at h0 ⊢
    rw [if_neg (by rw [h0]; norm_num)]
  · intro h0
    simp only [deriveMetrics] at h0 ⊢
    rw [if_neg (by omega)]

theorem calculate_component_metrics_counts (th : ℚ)
    (expected actual : List (List Char)) :
    0 ≤ (calculate_component_metrics th expected actual).true_positives ∧
    0 ≤ (calculate_component_metrics th expected actual).false_positives ∧
    0 ≤ (calculate_component_metrics th expected actual).false_negatives := by
  have h := semantic_matching_length_le th expected actual
  simp only [calculate_component_metrics, deriveMetrics]
  refine ⟨by positivity, ?_, ?_⟩ <;> omega

/-- C2: the per-category metrics produced by `_calculate_component_metrics`
and the micro-averaged aggregate produced by `_aggregate_metrics` over any
family of per-category results satisfy the ratio invariants: all four ratios
lie in [0,1], each ratio is 0 when its denominator is 0, and F1 is 0 whenever
precision + recall is 0. -/
theorem component_and_aggregate_metrics_invariant (th : ℚ) :
    (∀ expected actual : List (List Char),
      metricsInvariant (calculate_component_metrics th expected actual)) ∧
    (∀ pairs : List (List (List Char) × List (List Char)),
      metricsInvariant (aggregate_metrics
        (pairs.map (fun p => calculate_component_metrics th p.1 p.2)))) := by
  constructor
  · intro expected actual
    have h := calculate_component_metrics_counts th expected actual
    have heq : calculate_component_metrics th expected actual =
        deriveMetrics (calculate_component_metrics th expected actual).true_positives
          (calculate_component_metrics th expected actual).false_positives
          (calculate_component_metrics th expected actual).false_negatives := rfl
    rw [heq]
    exact deriveMetrics_invariant _ _ _ h.1 h.2.1 h.2.2
  · intro pairs
    apply deriveMetrics_invariant
    · apply List.sum_nonneg
      intro x hx
      simp only [List.mem_map, List.mem_map] at hx
      obtain ⟨m, hm, rfl⟩ := hx
      obtain ⟨p, hp, rfl⟩ := hm
      exact (calculate_component_metrics_counts th p.1 p.2).1
    · apply List.sum_nonneg
      intro x hx
      simp only [List.mem_map, List.mem_map] at hx
      obtain ⟨m, hm, rfl⟩ := hx
      obtain ⟨p, hp, rfl⟩ := hm
      exact (calculate_component_metrics_counts th p.1 p.2).2.1
    · apply List.sum_nonneg
      intro x hx
      simp only [List.mem_map, List.mem_map] at hx
      obtain ⟨m, hm, rfl⟩ := hx
      obtain ⟨p, hp, rfl⟩ := hm
      exact (calculate_component_metrics_counts th p.1 p.2).2.2

/-! ## Identical sets under semantic matching (C3) -/

theorem findBest_skip (th : ℚ) (e : List Char) (used : List (List Char)) :
    ∀ (l1 l2 : List (List Char)) (best : Option (List Char) × ℚ),
      (∀ x ∈ l1, x ∈ used) →
      findBest th e used (l1 ++ l2) best = findBest th e used l2 best := by
  intro l1
  induction l1 with
  | nil => intro l2 best _; rfl
  | cons a rest ih =>
    intro l2 best h
    simp only [List.cons_append, findBest]
    rw [if_pos (h a (List.mem_cons_self a rest))]
    exact ih l2 best (fun x hx => h x (List.mem_cons_of_mem a hx))

theorem findBest_stuck (th : ℚ) (e : List Char) (used : List (List Char))
    (hsim : ∀ x, calculate_similarity e x ≤ 1) :
    ∀ (l : List (List Char)) (b : List Char),
      findBest th e used l (some b, 1) = (some b, 1) := by
  intro l
  induction l with
  | nil => intro b; rfl
  | cons a rest ih =>
    intro b
    simp only [findBest]
    split_ifs with h1 h2
    · exact ih b
    · exfalso
      have h3 : calculate_similarity e a > 1 := h2.2
      linarith [hsim a]
    · exact ih b

theorem findBest_diag (th : ℚ) (hth : th ≤ 1) (e : List Char)
    (used : List (List Char)) (he : e ∉ used)
    (rest : List (List Char)) :
    findBest th e used (e :: rest) (none, 0) = (some e, 1) := by
  have hsim : ∀ x, calculate_similarity e x ≤ 1 := fun x => calculate_similarity_le_one e x
  simp only [findBest]
  rw [if_neg he, calculate_similarity_self]
  rw [if_pos (by constructor <;> [exact hth; norm_num])]
  exact findBest_stuck th e used hsim rest e

theorem smAux_diag (th : ℚ) (hth : th ≤ 1) (S : List (List Char)) (hnd : S.Nodup)
    (hne : ∀ x ∈ S, x ≠ []) :
    ∀ (todo pre : List (List Char)) (acc : List (List Char × List Char)),
      S = pre ++ todo →
      (smAux th S todo (acc, pre)).1.length = acc.length + todo.length := by
  intro todo
  induction todo with
  | nil => intro pre acc _; simp [smAux]
  | cons e rest ih =>
    intro pre acc hS
    have henotin : e ∉ pre := by
      rw [hS] at hnd
      rcases List.nodup_append.mp hnd with ⟨_, _, hdisj⟩
      intro hmem
      exact hdisj hmem (List.mem_cons_self e rest)
    have hfb : findBest th e pre S (none, 0) = (some e, 1) := by
      rw [hS, findBest_skip th e pre pre (e :: rest) (none, 0) (fun x hx => hx)]
      exact findBest_diag th hth e pre henotin rest
    have hene : e ≠ [] := hne e (by rw [hS]; exact List.mem_append_right pre (List.mem_cons_self e rest))
    simp only [smAux]
    rw [hfb]
    dsimp only
    rw [if_neg hene]
    have := ih (pre ++ [e]) (acc ++ [(e, e)]) (by rw [hS]; simp)
    rw [this]
    simp only [List.length_append, List.length_cons, List.length_nil]
    omega

/-- C3 (amended): for every duplicate-free set of non-empty strings,
semantic matching of the set against itself matches every element —
tp = |S|, fp = 0, fn = 0 — and in particular the expected/actual actor sets
{"User", "Admin"} produce tp = 2, fp = 0, fn = 0 and
precision = recall = F1 = accuracy = 1.0. -/
theorem semantic_matching_identity_spec :
    (∀ S : List (List Char), S.Nodup → (∀ x ∈ S, x ≠ []) →
      (calculate_component_metrics (85/100) S S).true_positives = S.length ∧
      (calculate_component_metrics (85/100) S S).false_positives = 0 ∧
      (calculate_component_metrics (85/100) S S).false_negatives = 0) ∧
    (calculate_component_metrics (85/100) ["User".data, "Admin".data]
        ["User".data, "Admin".data] =
      { true_positives := 2, false_positives := 0, false_negatives := 0
        precision := 1, «recall» := 1, f1_score := 1, accuracy := 1 }) := by
  constructor
  · intro S hnd hne
    have hlen : (semantic_matching (85/100) S S).length = S.length := by
      have := smAux_diag (85/100) (by norm_num) S hnd hne S [] [] (by simp)
      simpa [semantic_matching] using this
    refine ⟨?_, ?_, ?_⟩ <;>
      simp only [calculate_component_metrics, deriveMetrics, hlen] <;> omega
  · with_unfolding_all rfl

/-- Witness for C3 at the concrete one-element set {"User"}. -/
theorem semantic_matching_identity_spec_witness :
    (calculate_component_metrics (85/100) ["User".data] ["User".data]).true_positives = 1 ∧
    (calculate_component_metrics (85/100) ["User".data] ["User".data]).false_positives = 0 ∧
    (calculate_component_metrics (85/100) ["User".data] ["User".data]).false_negatives = 0 := by
  have h := semantic_matching_identity_spec.1 ["User".data] (by decide) (by decide)
  simpa using h

/-- C3 counterexample: the set containing only the empty string.  Its one
element matches itself with similarity 1.0, but `if best_match:` is false for
the empty string, so the match is discarded: tp = 0 and fp = fn = 1, not
tp = |S| = 1, fp = fn = 0 as the claim states. -/
theorem semantic_matching_empty_string_counterexample :
    (calculate_component_metrics (85/100) [[]] [[]]).true_positives = 0 ∧
    (calculate_component_metrics (85/100) [[]] [[]]).false_positives = 1 ∧
    (calculate_component_metrics (85/100) [[]] [[]]).false_negatives = 1 := by
  refine ⟨?_, ?_, ?_⟩ <;> with_unfolding_all rfl

/-! ## Phase-1 validation (C4) -/

/-- C4 counterexample: on a well-formed normalized text with an AI outcome of
`logic_preserved = false` and an empty issue list, `validate_normalization`
returns `is_valid = true` even though `logic_preserved` is `false` — so
overall validity is not the claimed four-way conjunction. -/
theorem validator_is_valid_counterexample :
    (validate_normalization c4Code c4AI).is_valid = true ∧
    (validate_normalization c4Code c4AI).logic_preserved = false := by
  constructor
  · decide
  · rfl

/-- C4 (amended): the returned overall validity is true exactly when no
issue in the combined (syntax + AI) issue list has severity high or critical;
`syntax_valid`, `logic_preserved` and `conventions_matched` are reported as
separate fields but do not enter `is_valid` directly. -/
theorem validate_normalization_spec (code : List Char) (ai : AIValidation) :
    ((validate_normalization code ai).is_valid = true ↔
      ∀ i ∈ (validate_normalization code ai).issues,
        i.severity ≠ "high" ∧ i.severity ≠ "critical") ∧
    (validate_normalization code ai).issues = validate_syntax_issues code ++ ai.issues ∧
    ((validate_normalization code ai).syntax_valid = true ↔
      validate_syntax_issues code = []) ∧
    (validate_normalization code ai).logic_preserved = ai.logic_preserved ∧
    (validate_normalization code ai).conventions_matched = ai.conventions_matched := by
  refine ⟨?_, rfl, ?_, rfl, rfl⟩
  · simp only [validate_normalization, decide_eq_true_eq, List.length_eq_zero,
      List.filter_eq_nil_iff]
    constructor
    · intro h i hi
      have := h i hi
      push_neg at this
      simpa using this
    · intro h i hi
      have h2 := h i hi
      simpa using h2
  · show decide ((validate_syntax_issues code).length = 0) = true ↔ validate_syntax_issues code = []
    simp [List.length_eq_zero]

/-- Witness for C4 at a concrete input, via the amended theorem's equivalence
at `c4Code` with an AI outcome carrying one critical issue. -/
theorem validate_normalization_spec_witness :
    (validate_normalization c4Code c4AI).is_valid = true ↔
      ∀ i ∈ (validate_normalization c4Code c4AI).issues,
        i.severity ≠ "high" ∧ i.severity ≠ "critical" :=
  (validate_normalization_spec c4Code c4AI).1

/-! ## Parser validity (C9) -/

theorem extract_relationships_uc_endpoints (code : List Char)
    (actorNames ucNames : List (List Char)) :
    ∀ r ∈ extract_relationships_uc code actorNames ucNames,
      (actorNames.contains r.source ∨ ucNames.contains r.source) ∧
      (actorNames.contains r.target ∨ ucNames.contains r.target) := by
  intro r hr
  simp only [extract_relationships_uc, List.mem_flatMap, List.mem_filterMap] at hr
  obtain ⟨p, hp, caps, hcaps, heq⟩ := hr
  split_ifs at heq <;>
    first
    | (simp only [Option.some.injEq] at heq; subst heq; simp_all)
    | exact absurd heq (by simp)

theorem extract_relationships_cls_endpoints (code : List Char)
    (classNames : List (List Char)) :
    ∀ r ∈ extract_relationships_cls code classNames,
      classNames.contains r.source ∧ classNames.contains r.target := by
  intro r hr
  simp only [extract_relationships_cls, List.mem_filterMap] at hr
  obtain ⟨caps, hcaps, heq⟩ := hr
  split_ifs at heq <;>
    first
    | (simp only [Option.some.injEq] at heq; subst heq; simp_all)
    | exact absurd heq (by simp)

/-- C9: both parsers are total functions returning a structurally valid
diagram — every extracted relationship's endpoints resolve to extracted
actor/use-case names (use-case parser) or class names (class parser) — and
parsing the marker-only text `@startuml\n@enduml` yields empty entity and
relationship collections. -/
theorem parse_diagram_valid_and_empty :
    (∀ code : List Char,
      ((parse_diagram_uc code).relationships.all (fun r =>
        ((((parse_diagram_uc code).actors.map Actor.name).contains r.source ||
          ((parse_diagram_uc code).use_cases.map UseCase.name).contains r.source) &&
         (((parse_diagram_uc code).actors.map Actor.name).contains r.target ||
          ((parse_diagram_uc code).use_cases.map UseCase.name).contains r.target)))) = true) ∧
    (∀ code : List Char,
      ((parse_diagram_cls code).relationships.all (fun r =>
        (((parse_diagram_cls code).classes.map UMLClass.name).contains r.source &&
         ((parse_diagram_cls code).classes.map UMLClass.name).contains r.target))) = true) ∧
    parse_diagram_uc "@startuml\n@enduml".data =
      { actors := [], use_cases := [], relationships := [] } ∧
    parse_diagram_cls "@startuml\n@enduml".data =
      { classes := [], relationships := [] } := by
  refine ⟨?_, ?_, by decide, by decide⟩
  · intro code
    rw [List.all_eq_true]
    intro r hr
    have hnames : (parse_diagram_uc code).actors.map Actor.name
        = extract_actors (cleanUseCaseCode code) := by
      simp only [parse_diagram_uc, List.map_map]
      show List.map id _ = _
      exact List.map_id _
    have hucs : (parse_diagram_uc code).use_cases.map UseCase.name
        = extract_use_cases (cleanUseCaseCode code) := by
      simp only [parse_diagram_uc, List.map_map]
      show List.map id _ = _
      exact List.map_id _
    have hrels : (parse_diagram_uc code).relationships
        = extract_relationships_uc (cleanUseCaseCode code)
            (extract_actors (cleanUseCaseCode code))
            (extract_use_cases (cleanUseCaseCode code)) := rfl
    rw [hrels] at hr
    have h := extract_relationships_uc_endpoints _ _ _ r hr
    rw [hnames, hucs]
    simp only [Bool.and_eq_true, Bool.or_eq_true]
    exact ⟨h.1.imp id id, h.2.imp id id⟩
  · intro code
    rw [List.all_eq_true]
    intro r hr
    have hrels : (parse_diagram_cls code).relationships
        = extract_relationships_cls (cleanClassCode code)
            ((extract_classes (cleanClassCode code)).map UMLClass.name) := rfl
    rw [hrels] at hr
    have h := extract_relationships_cls_endpoints _ _ r hr
    have hnames : (parse_diagram_cls code).classes.map UMLClass.name
        = (extract_classes (cleanClassCode code)).map UMLClass.name := rfl
    rw [hnames]
    simp only [Bool.and_eq_true]
    exact h

/-! ## Pipeline orchestration (C5, C6, C7) -/

theorem pipelineFailure_errors_ne (dt : DiagramType) (w errs : List String)
    (e : String) : (pipelineFailure dt w errs e).errors ≠ [] := by
  simp [pipelineFailure]

theorem allIssues_append_str (l : List WarnVal) (s : String) :
    allIssues (l ++ [WarnVal.str s]) = none := by
  induction l with
  | nil => rfl
  | cons hd tl ih =>
    cases hd with
    | str t => rfl
    | issue i => simp [allIssues, ih]

theorem ncAttempts_all_fail (chain : ℕ → Except String ValidationResult)
    (student : List Char) (dt : DiagramType) :
    ∀ (remaining attempt retries : ℕ) (warnings : List WarnVal),
      (∀ j, attempt ≤ j → j ≤ attempt + remaining →
        ∃ e, chain j = Except.error e) →
      ∃ err, ncAttempts chain student dt remaining attempt retries warnings
        = Except.error err := by
  intro remaining
  induction remaining with
  | zero =>
    intro attempt retries warnings h
    obtain ⟨e, he⟩ := h attempt le_rfl (by omega)
    refine ⟨"ValidationError: warnings items must be ValidationIssue", ?_⟩
    simp only [ncAttempts, ncTryAttempt, he, mkNormalizationChainResult,
      allIssues_append_str]
  | succ rem ih =>
    intro attempt retries warnings h
    obtain ⟨e, he⟩ := h attempt le_rfl (by omega)
    have hstep : ncAttempts chain student dt (rem + 1) attempt retries warnings
        = ncAttempts chain student dt rem (attempt + 1) (retries + 1)
            (warnings ++
              [WarnVal.str ("Retry " ++ toString (attempt + 1) ++ ": " ++ e)]) := by
      simp only [ncAttempts, ncTryAttempt, he]
    rw [hstep]
    exact ih (attempt + 1) (retries + 1) _ (fun j hj1 hj2 => h j (by omega) (by omega))

/-- C6: the spec says that when Phase 1 exhausts its retries the pipeline
continues, Phase 2 receives the original student text and the run may still
succeed. In the code that path is unreachable: when every attempt of the AI
chain fails, the retry loop has put plain strings into the
`warnings: list[ValidationIssue]` data, so the fallback
`NormalizationChainResult` construction itself raises pydantic
`ValidationError` - `normalize_conventions` raises instead of returning a
failure result, the pipeline's `except` handler produces a failed result
with score 0 and grade 'F', and Phase 2 is never invoked. Moreover (third
conjunct) even a `success=False` Phase-1 result would not let the pipeline
continue: line 120 reads the non-existent `phase_one_result.errors`
attribute, which also aborts the run before Phase 2. -/
theorem phase1_retry_exhaustion_diverges
    (chain : ℕ → Except String ValidationResult)
    (student teacher problem : List Char) (dt : DiagramType) (max_retries : ℕ)
    (phase2 : List Char → List Char → DiagramType → Except String ExtractionResult)
    (phase3 : Option DiagramUnion → Option DiagramUnion →
      Option SerializedMetrics → List Char → DiagramType →
      Except String PhaseThreeResult)
    (hfail : ∀ i, i ≤ max_retries → ∃ e, chain i = Except.error e) :
    (∃ err, normalize_conventions chain student teacher problem (some dt)
        max_retries = Except.error err) ∧
    (∀ res trace,
      process_diagram
        (fun s t p d => normalize_conventions chain s t p (some d) max_retries)
        phase2 phase3 student teacher problem (some dt) = (res, trace) →
      res.success = false ∧ res.final_score = 0 ∧ res.grade_letter = "F" ∧
      res.errors ≠ [] ∧ PhaseTag.phase2 ∉ trace) ∧
    (∀ (phase1x : List Char → List Char → List Char → DiagramType →
        Except String NormalizationChainResult)
       (r1 : NormalizationChainResult) res trace,
      phase1x student teacher problem dt = Except.ok r1 → r1.success = false →
      process_diagram phase1x phase2 phase3 student teacher problem (some dt)
        = (res, trace) →
      res.success = false ∧ PhaseTag.phase2 ∉ trace) := by
  have hnc : ∃ err, normalize_conventions chain student teacher problem (some dt)
      max_retries = Except.error err := by
    show ∃ err, ncAttempts chain student dt max_retries 0 0 [] = Except.error err
    exact ncAttempts_all_fail chain student dt max_retries 0 0 []
      (fun j hj1 hj2 => hfail j (by omega))
  obtain ⟨err, herr⟩ := hnc
  refine ⟨⟨err, herr⟩, ?_, ?_⟩
  · intro res trace h
    simp only [process_diagram, pipelineDt, herr] at h
    rw [Prod.mk.injEq] at h
    obtain ⟨ha, hb⟩ := h
    subst ha; subst hb
    exact ⟨rfl, rfl, rfl, pipelineFailure_errors_ne _ _ _ _, by decide⟩
  · intro phase1x r1 res trace h1 hs h
    simp only [process_diagram, pipelineDt, h1] at h
    simp only [hs] at h
    simp at h
    obtain ⟨ha, hb⟩ := h
    subst ha; subst hb
    exact ⟨rfl, by decide⟩

/-- Closed instance of C6 at a concrete failing chain: with a chain that
fails every attempt and `max_retries = 0`, `normalize_conventions` raises
the pydantic `ValidationError`, and the pipeline run ends failed (score 0,
grade 'F', non-empty errors) without Phase 2 ever running. -/
theorem phase1_retry_exhaustion_diverges_witness :
    normalize_conventions c6chain [] [] [] (some DiagramType.USE_CASE) 0 =
      Except.error "ValidationError: warnings items must be ValidationIssue" ∧
    c6run.1.success = false ∧ c6run.1.final_score = 0 ∧
    c6run.1.grade_letter = "F" ∧ c6run.1.errors ≠ [] ∧
    PhaseTag.phase2 ∉ c6run.2 := by
  have h := phase1_retry_exhaustion_diverges c6chain [] [] []
    DiagramType.USE_CASE 0 realPhase2 oraclePhase3
    (fun i _ => ⟨"LLM failure", rfl⟩)
  have h2 := h.2.1 c6run.1 c6run.2 rfl
  exact ⟨by rfl, h2.1, h2.2.1, h2.2.2.1, h2.2.2.2.1, h2.2.2.2.2⟩

/-- C7: whenever Phase 2 fails - whether it returns a `success=False`
result or raises - the pipeline aborts without invoking Phase 3 and the
returned result has `success=false`, `final_score=0.0`, `grade_letter='F'`
and a non-empty errors list. Third conjunct: a forced unsupported diagram
type indeed makes Phase 2 raise (`ValueError` inside the `try`, and the
`except` handler's own result construction re-raises on the invalid type),
so it lands in the aborting case. -/
theorem phase2_failure_aborts :
    (∀ (phase1 : List Char → List Char → List Char → DiagramType →
        Except String NormalizationChainResult)
       (phase2 : List Char → List Char → DiagramType →
        Except String ExtractionResult)
       (phase3 : Option DiagramUnion → Option DiagramUnion →
        Option SerializedMetrics → List Char → DiagramType →
        Except String PhaseThreeResult)
       (student teacher problem : List Char) (dt : DiagramType)
       (r1 : NormalizationChainResult) (r2 : ExtractionResult),
       phase1 student teacher problem dt = Except.ok r1 → r1.success = true →
       phase2 r1.normalized_plantuml teacher dt = Except.ok r2 →
       r2.success = false →
       ∀ res trace,
         process_diagram phase1 phase2 phase3 student teacher problem (some dt)
           = (res, trace) →
         res.success = false ∧ res.final_score = 0 ∧ res.grade_letter = "F" ∧
         res.errors ≠ [] ∧ PhaseTag.phase3 ∉ trace) ∧
    (∀ (phase1 : List Char → List Char → List Char → DiagramType →
        Except String NormalizationChainResult)
       (phase2 : List Char → List Char → DiagramType →
        Except String ExtractionResult)
       (phase3 : Option DiagramUnion → Option DiagramUnion →
        Option SerializedMetrics → List Char → DiagramType →
        Except String PhaseThreeResult)
       (student teacher problem : List Char) (dt : DiagramType)
       (r1 : NormalizationChainResult) (e : String),
       phase1 student teacher problem dt = Except.ok r1 → r1.success = true →
       phase2 r1.normalized_plantuml teacher dt = Except.error e →
       ∀ res trace,
         process_diagram phase1 phase2 phase3 student teacher problem (some dt)
           = (res, trace) →
         res.success = false ∧ res.final_score = 0 ∧ res.grade_letter = "F" ∧
         res.errors ≠ [] ∧ PhaseTag.phase3 ∉ trace) ∧
    (∀ (th : ℚ) (student teacher : List Char) (s : String),
       ∃ e, extract_and_calculate_metrics th student teacher
         (DiagramTypeIn.invalid s) = Except.error e) := by
  refine ⟨?_, ?_, ?_⟩
  · intro phase1 phase2 phase3 student teacher problem dt r1 r2 h1 hs1 h2 hs2
      res trace h
    simp only [process_diagram, pipelineDt, h1] at h
    simp only [hs1] at h
    simp [h2, hs2] at h
    obtain ⟨ha, hb⟩ := h
    subst ha; subst hb
    exact ⟨rfl, rfl, rfl, pipelineFailure_errors_ne _ _ _ _, by decide⟩
  · intro phase1 phase2 phase3 student teacher problem dt r1 e h1 hs1 h2
      res trace h
    simp only [process_diagram, pipelineDt, h1] at h
    simp only [hs1] at h
    simp [h2] at h
    obtain ⟨ha, hb⟩ := h
    subst ha; subst hb
    exact ⟨rfl, rfl, rfl, pipelineFailure_errors_ne _ _ _ _, by decide⟩
  · intro th student teacher s
    exact ⟨"ValidationError: diagram_type " ++ s, rfl⟩

/-- Closed instance of C7 at concrete runs: a `success=False` Phase-2
result and a raising Phase 2 both end the pipeline failed with score 0,
grade 'F', non-empty errors and no Phase 3; and the extractor forced onto
the unsupported diagram type "flowchart" raises. -/
theorem phase2_failure_aborts_witness :
    (c7runA.1.success = false ∧ c7runA.1.final_score = 0 ∧
     c7runA.1.grade_letter = "F" ∧ c7runA.1.errors ≠ [] ∧
     PhaseTag.phase3 ∉ c7runA.2) ∧
    (c7runB.1.success = false ∧ c7runB.1.final_score = 0 ∧
     c7runB.1.grade_letter = "F" ∧ c7runB.1.errors ≠ [] ∧
     PhaseTag.phase3 ∉ c7runB.2) ∧
    exceptIsOk (extract_and_calculate_metrics (17/20) [] []
      (DiagramTypeIn.invalid "flowchart")) = false := by
  obtain ⟨hA, hB, hC⟩ := phase2_failure_aborts
  have ha := hA oraclePhase1 c7phase2fail oraclePhase3 [] [] []
    DiagramType.USE_CASE _ failedExtraction rfl rfl rfl rfl
    c7runA.1 c7runA.2 rfl
  have hb := hB oraclePhase1 c7phase2err oraclePhase3 [] [] []
    DiagramType.USE_CASE _ "network down" rfl rfl rfl
    c7runB.1 c7runB.2 rfl
  obtain ⟨e, he⟩ := hC (17/20) [] [] "flowchart"
  refine ⟨ha, hb, ?_⟩
  rw [he]
  rfl

/-- C5 counterexample: with entirely blank student, teacher and problem
inputs the pipeline performs no empty-input check at all - all three
phases run (Phase 1 first) and the run even reports success, refuting the
claimed fail-fast on empty input before any phase. (The HTTP router, not
`process_diagram`, is where blank inputs are rejected.) -/
theorem empty_input_no_check_counterexample :
    c5run.1.success = true ∧
    c5run.2 = [PhaseTag.phase1, PhaseTag.phase2, PhaseTag.phase3] := by
  constructor
  · with_unfolding_all rfl
  · with_unfolding_all rfl

/-- C5 (amended): `process_diagram` performs no input validation - Phase 1
is always the first thing invoked, for every input including blank ones -
and it is total for well-typed arguments: every error a phase raises is
absorbed by the `except` handler, so the returned result either reports
success or carries a non-empty errors list. The unsupported-diagram-type
failure arises inside Phase 2, not as a pipeline precheck. -/
theorem process_diagram_no_precheck_and_total
    (phase1 : List Char → List Char → List Char → DiagramType →
      Except String NormalizationChainResult)
    (phase2 : List Char → List Char → DiagramType → Except String ExtractionResult)
    (phase3 : Option DiagramUnion → Option DiagramUnion →
      Option SerializedMetrics → List Char → DiagramType →
      Except String PhaseThreeResult)
    (student teacher problem : List Char) (dtOpt : Option DiagramType) :
    (process_diagram phase1 phase2 phase3 student teacher problem dtOpt).2.head?
      = some PhaseTag.phase1 ∧
    ((process_diagram phase1 phase2 phase3 student teacher problem dtOpt).1.success
        = true ∨
     (process_diagram phase1 phase2 phase3 student teacher problem dtOpt).1.errors
        ≠ []) := by
  simp only [process_diagram]
  split
  · exact ⟨rfl, Or.inr (pipelineFailure_errors_ne _ _ _ _)⟩
  · split
    · exact ⟨rfl, Or.inr (pipelineFailure_errors_ne _ _ _ _)⟩
    · split
      · exact ⟨rfl, Or.inr (pipelineFailure_errors_ne _ _ _ _)⟩
      · split
        · exact ⟨rfl, Or.inr (pipelineFailure_errors_ne _ _ _ _)⟩
        · split
          · exact ⟨rfl, Or.inr (pipelineFailure_errors_ne _ _ _ _)⟩
          · split
            · exact ⟨rfl, Or.inl rfl⟩
            · exact ⟨rfl, Or.inl rfl⟩

end AutoScoring
